import Mathlib

/-
Verification of the ticker_data fundamentals pipeline.

The Python sources (config.py, src/data_fetcher.py, src/file_writer.py,
src/main.py) are modelled as executable Lean definitions:

* pandas statement DataFrames become `Statement` values: a list of column
  keys (dates, or labels whose year cannot be parsed) together with rows of
  label × cell function; a missing cell and a NaN cell are both `none`,
  since pandas treats NaN as the null marker and every consumer in this
  repository filters cells through pd.isna / pd.notna;
* python floats become exact rationals; float division is total rational
  division (the code only divides after guarding the denominator);
* python dict / list / string cell payloads become the `Value` type.
-/

namespace TickerData

/-- A cell payload of the assembled fundamentals table: python None / NaN /
pd.NA, a number, a string, a list of strings, or a dict with string keys. -/
inductive Value where
  | none : Value
  | num (q : ℚ) : Value
  | str (s : String) : Value
  | strList (l : List String) : Value
  | dict (entries : List (String × Value)) : Value

/-- pd.isna on a cell: only the null marker is missing. -/
def Value.isna : Value → Bool
  | .none => true
  | _ => false

/-- Wrap an optional float as a cell. -/
def Value.ofQ? : Option ℚ → Value
  | Option.none => .none
  | Option.some q => .num q

/-- Wrap an optional string as a cell. -/
def Value.ofS? : Option String → Value
  | Option.none => .none
  | Option.some s => .str s

/-- Read a numeric cell back as an optional float. -/
def Value.toQ? : Value → Option ℚ
  | .num q => Option.some q
  | _ => Option.none

/-- dict.get on a dict cell: none for a missing key or a non-dict value. -/
def Value.dictGetS : Value → String → Value
  | .dict entries, k =>
    match entries.find? (fun e => e.1 == k) with
    | Option.none => .none
    | Option.some e => e.2
  | _, _ => .none

/-- python `or` on optional floats: None and 0.0 are falsy; the second
operand is returned unchanged when the first is falsy. -/
def orQ (a b : Option ℚ) : Option ℚ :=
  match a with
  | Option.some x => if x = 0 then b else Option.some x
  | Option.none => b

/-- python `or` on optional strings: None and the empty string are falsy. -/
def orS (a b : Option String) : Option String :=
  match a with
  | Option.some x => if x = "" then b else Option.some x
  | Option.none => b

/-- Decimal digits of a rational in [0, 1), at most `fuel` digits.  Python
prints the shortest repr of a binary float, which has at most 17 significant
digits; exactly-decimal values (the ones the theorems evaluate) print their
exact expansion under both. -/
def decDigits : Nat → ℚ → String
  | 0, _ => ""
  | fuel + 1, r =>
    if r = 0 then ""
    else
      String.singleton (Char.ofNat (48 + (Int.floor (r * 10)).toNat)) ++
        decDigits fuel (r * 10 - ((Int.floor (r * 10)).toNat : ℚ))

/-- python str() of a float, modelled on exact rationals: sign, integer
part, a point, then the fractional digits (at least one digit, as python
always prints one). -/
def pyFloatStr (q : ℚ) : String :=
  (if q < 0 then "-" else "") ++ toString (Int.floor |q|) ++ "." ++
    (if decDigits 17 (|q| - (Int.floor |q| : ℚ)) = "" then "0"
     else decDigits 17 (|q| - (Int.floor |q| : ℚ)))

/-- Round to the nearest integer, ties to even (python's float formatting
rounds the printed decimal this way). -/
def roundHalfEvenInt (q : ℚ) : Int :=
  if q - (Int.floor q : ℚ) < 1 / 2 then Int.floor q
  else if 1 / 2 < q - (Int.floor q : ℚ) then Int.floor q + 1
  else if Int.floor q % 2 = 0 then Int.floor q else Int.floor q + 1

/-- Zero-pad a digit string on the left to width `k`. -/
def padZeros (k : Nat) (s : String) : String :=
  String.mk (List.replicate (k - s.length) '0') ++ s

/-- python fixed-point formatting with `k` decimals, f"{v:.kf}". -/
def fmtFixed (k : Nat) (q : ℚ) : String :=
  (if q < 0 then "-" else "") ++
    toString ((roundHalfEvenInt (|q| * ((10 ^ k : ℕ) : ℚ))).toNat / 10 ^ k) ++
    (if k = 0 then "" else "." ++
      padZeros k (toString ((roundHalfEvenInt (|q| * ((10 ^ k : ℕ) : ℚ))).toNat % 10 ^ k)))

/-- Walk a reversed digit list inserting a thousands separator. -/
def commaGroupGo : List Char → List Char
  | c1 :: c2 :: c3 :: c4 :: rest => c1 :: c2 :: c3 :: ',' :: commaGroupGo (c4 :: rest)
  | l => l

/-- Insert thousands separators into a digit string. -/
def commaGroup (s : String) : String :=
  String.mk ((commaGroupGo s.toList.reverse).reverse)

/-- python f"{v:,.2f}": two decimals, thousands separators. -/
def commaFmt2 (q : ℚ) : String :=
  (if q < 0 then "-" else "") ++
    commaGroup (toString ((roundHalfEvenInt (|q| * 100)).toNat / 100)) ++ "." ++
    padZeros 2 (toString ((roundHalfEvenInt (|q| * 100)).toNat % 100))

/-- Numeric value of a digit list. -/
def digitsVal (cs : List Char) : ℕ :=
  cs.foldl (fun acc c => 10 * acc + (c.toNat - 48)) 0

/-- Are the first characters of the second list the first list? -/
def startsWithChars : List Char → List Char → Bool
  | [], _ => true
  | _ :: _, [] => false
  | a :: as, b :: bs => a == b && startsWithChars as bs

/-- Does the needle occur contiguously in the haystack? -/
def substrInChars (needle : List Char) : List Char → Bool
  | [] => startsWithChars needle []
  | b :: bs => startsWithChars needle (b :: bs) || substrInChars needle bs

/-- python `needle in hay` on strings. -/
def strContains (hay needle : String) : Bool :=
  substrInChars needle.toList hay.toList

/-- python str.strip(): drop leading and trailing whitespace.  (The core
String.trim is equivalent, but it is defined through substring loops that
do not reduce inside the kernel, so the embedding uses this list
version.) -/
def pyStrip (s : String) : String :=
  String.mk (((s.toList.dropWhile Char.isWhitespace).reverse.dropWhile
    Char.isWhitespace).reverse)

/-- python str.lower(), over the ASCII range. -/
def pyLower (s : String) : String :=
  String.mk (s.toList.map Char.toLower)

/-- python s.startswith(p). -/
def pyStartsWith (s p : String) : Bool :=
  startsWithChars p.toList s.toList

/-- Split a character list on a separator character. -/
def splitOnChar (sep : Char) : List Char → List (List Char)
  | [] => [[]]
  | c :: rest =>
    match splitOnChar sep rest with
    | [] => [[]]
    | g :: gs => if c == sep then [] :: g :: gs else (c :: g) :: gs

/-- python s.split(sep) for a one-character separator. -/
def pySplitOn (s : String) (sep : Char) : List String :=
  (splitOnChar sep s.toList).map String.mk

/-- python sep.join(l) (also used to recombine a maxsplit tail). -/
def joinWith (sep : String) : List String → String
  | [] => ""
  | x :: xs => xs.foldl (fun acc t => acc ++ sep ++ t) x

/-- python float(s) on plain decimal literals: optional sign, digits with
an optional single point; anything else fails. -/
def parseFloat (s : String) : Option ℚ :=
  let t := pyStrip s
  let sgn : ℚ := if pyStartsWith t "-" then -1 else 1
  let body := if pyStartsWith t "-" || pyStartsWith t "+" then
    String.mk (t.toList.drop 1) else t
  match pySplitOn body '.' with
  | [i] =>
    if i ≠ "" ∧ i.toList.all Char.isDigit then
      Option.some (sgn * (digitsVal i.toList : ℚ))
    else Option.none
  | [i, f] =>
    if (i ≠ "" ∨ f ≠ "") ∧ i.toList.all Char.isDigit ∧ f.toList.all Char.isDigit then
      Option.some (sgn * ((digitsVal i.toList : ℚ) +
        (digitsVal f.toList : ℚ) / ((10 ^ f.length : ℕ) : ℚ)))
    else Option.none
  | _ => Option.none

/-- The resolver's label normalization (src/data_fetcher.py, the nested
norm function): strip, lowercase, drop spaces and underscores. -/
def normLabel (s : String) : String :=
  String.mk ((pyLower (pyStrip s)).toList.filter (fun c => !(c == ' ' || c == '_')))

/-- A statement-table column label: a date (year plus an ordinal to keep
distinct dates of the same year apart) or a label without a parsable year.
`DKey.year?` is the embedding of col_year in src/data_fetcher.py. -/
inductive DKey where
  | date (year : Int) (ord : Int) : DKey
  | other (s : String) : DKey
deriving DecidableEq

/-- col_year: the year of a column label, none when it cannot be parsed. -/
def DKey.year? : DKey → Option Int
  | .date y _ => Option.some y
  | .other _ => Option.none

/-- A pandas statement DataFrame: column keys plus rows of label × cells;
a cell is none when the entry is absent or NaN. -/
structure Statement where
  cols : List DKey
  rows : List (String × (DKey → Option ℚ))

/-- df.empty: a DataFrame with no rows or no columns. -/
def Statement.isEmpty (s : Statement) : Bool :=
  s.rows.isEmpty || s.cols.isEmpty

/-- The pd.DataFrame() default passed by the assembler when a statement is
missing. -/
def emptyStatement : Statement := { cols := [], rows := [] }

/-- safe_get_value: df.loc lookup that yields none on a missing row, a
missing column, or a NaN cell. -/
def safe_get_value (df : Statement) (rowName : String) (d : DKey) : Option ℚ :=
  match df.rows.find? (fun r => r.1 == rowName) with
  | Option.none => Option.none
  | Option.some r => if d ∈ df.cols then r.2 d else Option.none

/-- get_value_candidates: try the candidate row names in order, return the
first value found. -/
def get_value_candidates (df : Statement) (cands : List String) (d : DKey) : Option ℚ :=
  match cands with
  | [] => Option.none
  | c :: cs =>
    match safe_get_value df c d with
    | Option.some v => Option.some v
    | Option.none => get_value_candidates df cs d

/-- The label finder of src/data_fetcher.py: a normalized-label map with
last-seen-wins collision handling is probed for each candidate in order;
when no candidate matches, a case-insensitive substring scan over the
original labels runs, again candidate-major, returning the first original
label containing the candidate. -/
def findLabelByCandidates (df? : Option Statement) (cands : List String) : Option String :=
  match df? with
  | Option.none => Option.none
  | Option.some df =>
    if df.isEmpty then Option.none
    else
      match cands.findSome? (fun c =>
          (df.rows.reverse.find? (fun r => normLabel r.1 == normLabel c)).map Prod.fst) with
      | Option.some l => Option.some l
      | Option.none =>
        cands.findSome? (fun c =>
          (df.rows.find? (fun r =>
            strContains (pyLower (pyStrip r.1)) (pyLower (pyStrip c)))).map
            Prod.fst)

/-- get_value_candidates_normalized: resolve a label through the finder and
read its value at the requested period. -/
def get_value_candidates_normalized (df? : Option Statement) (cands : List String)
    (d : DKey) : Option ℚ :=
  match findLabelByCandidates df? cands with
  | Option.none => Option.none
  | Option.some l =>
    match df? with
    | Option.some df => safe_get_value df l d
    | Option.none => Option.none

/-! ## Configuration (config.py) -/

/-- CSV_ROW_NAMES from config.py: the fixed ordered row schema of the
assembled table. -/
def CSV_ROW_NAMES : List String :=
  [ "marketCap", "beta", "peRatio", "forwardDividendYield", "EPS",
    "52WeekRange", "trailingPE", "forwardPE", "profitMargin",
    "dividend_and_split", "payoutRatio", "ROE",
    "totalRevenue", "totalRevenueChange", "costOfRevenue",
    "operatingExpense", "netIncome", "EBITDA",
    "cash cash equivalence", "total assets", "total liabilities",
    "working capital", "invested capital", "net debts",
    "net debts over EBITDA", "ordinary shared number",
    "net tangible assets" ]

/-- START_YEAR from config.py. -/
def START_YEAR : Int := 2021

/-- YEARS_TO_EXTRACT from config.py: the contiguous years from START_YEAR
through the current calendar year, inclusive. -/
def YEARS_TO_EXTRACT (currentYear : Int) : List Int :=
  (List.range (currentYear - START_YEAR + 1).toNat).map (fun i => START_YEAR + (i : Int))

/-! ## Price history (ticker.history with actions=True) -/

/-- One daily bar of the price history, in index order.  `year`/`ord`
identify the trading date; the OHLC and action columns are the floats
yfinance delivers (dividends and splits default to 0.0, not NaN). -/
structure PriceRow where
  year : Int
  ord : Int
  high : ℚ
  low : ℚ
  close : ℚ
  dividends : ℚ
  stockSplits : ℚ

/-- get_year_end_price_series: close of the last bar dated on or before
December 31 of the year (a bar is ≤ that date exactly when its year is ≤). -/
def get_year_end_price_series (priceHist : List PriceRow) (year : Int) : Option ℚ :=
  ((priceHist.filter (fun r => r.year ≤ year)).getLast?).map PriceRow.close

/-- Series.pct_change().dropna(): consecutive percentage changes of the
closes, keyed by the date of the later bar (the first NaN row is dropped). -/
def pctChange : List PriceRow → List ((Int × Int) × ℚ)
  | [] => []
  | [_] => []
  | a :: b :: rest => ((b.year, b.ord), b.close / a.close - 1) :: pctChange (b :: rest)

/-- The per-year return series of a price history: mask by calendar year,
then pct_change().dropna(). -/
def yearReturns (priceHist : List PriceRow) (year : Int) : List ((Int × Int) × ℚ) :=
  pctChange (priceHist.filter (fun r => r.year == year))

/-- pd.concat([...], axis=1).dropna(): the inner join of two date-keyed
series, paired in the order of the first. -/
def innerJoin (rs rm : List ((Int × Int) × ℚ)) : List (ℚ × ℚ) :=
  rs.filterMap (fun p =>
    (rm.find? (fun q => q.1 == p.1)).map (fun q => (p.2, q.2)))

/-- The overlapping (stock, benchmark) daily-return observations of one
calendar year, as the beta block joins them. -/
def combinedReturns (ph mh : List PriceRow) (year : Int) : List (ℚ × ℚ) :=
  innerJoin (yearReturns ph year) (yearReturns mh year)

/-! ## Sample statistics (pandas var/cov, ddof = 1) -/

/-- Arithmetic mean of a list of rationals (0 on the empty list, which the
callers never hit). -/
def listMean (xs : List ℚ) : ℚ := xs.sum / (xs.length : ℚ)

/-- pandas Series.var(): sample variance with ddof 1; NaN (none) on fewer
than two observations. -/
def sampleVar (xs : List ℚ) : Option ℚ :=
  if xs.length < 2 then Option.none
  else
    let m := listMean xs
    Option.some (((xs.map (fun x => (x - m) ^ 2)).sum) / ((xs.length : ℚ) - 1))

/-- pandas DataFrame.cov() off-diagonal entry: sample covariance with
ddof 1; NaN (none) on fewer than two observations. -/
def sampleCov (ps : List (ℚ × ℚ)) : Option ℚ :=
  if ps.length < 2 then Option.none
  else
    let mx := listMean (ps.map Prod.fst)
    let my := listMean (ps.map Prod.snd)
    Option.some (((ps.map (fun p => (p.1 - mx) * (p.2 - my))).sum) / ((ps.length : ℚ) - 1))

/-! ## Integer-keyed dicts (the per-year python dicts of the assembler) -/

/-- python dict assignment d[k] = v: replace an existing key in place, or
append the key at the end. -/
def dictSet (d : List (Int × Value)) (k : Int) (v : Value) : List (Int × Value) :=
  if d.any (fun e => e.1 == k) then
    d.map (fun e => if e.1 == k then (k, v) else e)
  else d ++ [(k, v)]

/-- Read a per-year dict through the pandas Series alignment of the
assembler: a missing key becomes NaN, i.e. the null cell. -/
def dictGet (d : List (Int × Value)) (k : Int) : Value :=
  match d.find? (fun e => e.1 == k) with
  | Option.none => Value.none
  | Option.some e => e.2

/-- Iterate the date columns of an optional statement in order, keeping only
columns of a requested year, and collect a per-year dict of cell values;
a later column of the same year overwrites an earlier one, exactly as the
python loops do. -/
def stmtDict (st? : Option Statement) (years : List Int)
    (f : Statement → DKey → Value) : List (Int × Value) :=
  match st? with
  | Option.none => []
  | Option.some s =>
    s.cols.foldl (fun acc d =>
      match d.year? with
      | Option.none => acc
      | Option.some y => if y ∈ years then dictSet acc y (f s d) else acc) []

/-! ## Derived-ratio extractor bodies (src/data_fetcher.py) -/

/-- The ROE loop body: None when net income or total equity is missing or
the equity is exactly zero, otherwise the quotient. -/
def roeVal (netIncome totalEquity : Option ℚ) : Value :=
  match netIncome, totalEquity with
  | Option.some n, Option.some t => if t = 0 then Value.none else Value.num (n / t)
  | _, _ => Value.none

/-- The profit-margin loop body: None when net income or total revenue is
missing or the revenue is exactly zero, otherwise the quotient. -/
def profitVal (netIncome totalRevenue : Option ℚ) : Value :=
  match netIncome, totalRevenue with
  | Option.some n, Option.some t => if t = 0 then Value.none else Value.num (n / t)
  | _, _ => Value.none

/-- The payout-ratio loop body: None when EPS is missing or zero or the
annual dividend sum is missing, otherwise annual dividends / EPS (the
source's trailing `if eps` ternary re-checks the already excluded zero). -/
def payoutVal (eps annualDiv : Option ℚ) : Value :=
  match eps, annualDiv with
  | Option.some e, Option.some d => if e = 0 then Value.none else Value.num (d / e)
  | _, _ => Value.none

/-- Candidate row names for net income in the ROE block. -/
def roeNetIncomeCands : List String := ["Net Income", "NetIncome", "netIncome"]

/-- Candidate row names for total equity in the ROE block (TotalAssets is
the source's documented fallback approximation). -/
def roeEquityCands : List String :=
  ["Total Stockholder Equity", "TotalStockholderEquity",
   "Total Stockholders Equity", "Total Equity", "TotalAssets"]

/-- calculate_roe: for each income-statement date column of a requested
year, resolve net income (from the income statement) and total equity (from
the balance sheet at the same date) and store the guarded quotient. -/
def calculate_roe (incomeStatement balanceSheet : Statement) (years : List Int) :
    List (Int × Value) :=
  incomeStatement.cols.foldl (fun acc d =>
    match d.year? with
    | Option.none => acc
    | Option.some y =>
      if y ∈ years then
        dictSet acc y
          (roeVal (get_value_candidates_normalized (Option.some incomeStatement)
                      roeNetIncomeCands d)
                  (get_value_candidates_normalized (Option.some balanceSheet)
                      roeEquityCands d))
      else acc) []

/-- The per-year dividends-and-splits cell: for a year with bars, the dict
of the dividend sum (None when zero) and the non-zero split events printed
as strings (None when there are none). -/
def divsplitCell (priceHist : List PriceRow) (year : Int) : Value :=
  if (priceHist.filter (fun r => r.year == year)).isEmpty then Value.none
  else
    Value.dict
      [("dividends",
        if ((priceHist.filter (fun r => r.year == year)).map PriceRow.dividends).sum == 0
        then Value.none
        else Value.num
          (((priceHist.filter (fun r => r.year == year)).map PriceRow.dividends).sum)),
       ("splits",
        if (((priceHist.filter (fun r => r.year == year)).filter
              (fun r => !(r.stockSplits == 0))).map
              (fun r => pyFloatStr r.stockSplits)).isEmpty
        then Value.none
        else Value.strList
          (((priceHist.filter (fun r => r.year == year)).filter
              (fun r => !(r.stockSplits == 0))).map
              (fun r => pyFloatStr r.stockSplits)))]

/-- The beta block for one year: guard the two masked histories, build the
joined daily percentage returns, and divide covariance by benchmark
variance.  pandas returns NaN variance on a single observation, which
passes the `var != 0` guard and yields a NaN (null) quotient. -/
def betaCell (priceHist? marketHist? : Option (List PriceRow)) (year : Int) : Value :=
  match priceHist?, marketHist? with
  | Option.some ph, Option.some mh =>
    if !(ph.filter (fun r => r.year == year)).isEmpty ∧
       !(mh.filter (fun r => r.year == year)).isEmpty then
      if !(combinedReturns ph mh year).isEmpty ∧
         sampleVar ((combinedReturns ph mh year).map Prod.snd) ≠ Option.some 0 then
        match sampleCov (combinedReturns ph mh year),
              sampleVar ((combinedReturns ph mh year).map Prod.snd) with
        | Option.some c, Option.some v => Value.num (c / v)
        | _, _ => Value.none
      else Value.none
    else Value.none
  | _, _ => Value.none

/-- Smallest element of a list of rationals. -/
def listMinQ : List ℚ → Option ℚ
  | [] => Option.none
  | x :: xs => Option.some (xs.foldl min x)

/-- Largest element of a list of rationals. -/
def listMaxQ : List ℚ → Option ℚ
  | [] => Option.none
  | x :: xs => Option.some (xs.foldl max x)

/-- The per-year 52-week-style range cell: min of daily lows and max of
daily highs of the year, printed with python's default float formatting
into "min-max"; None when the year has no bars. -/
def rangeCell (priceHist : List PriceRow) (year : Int) : Value :=
  if (priceHist.filter (fun r => r.year == year)).isEmpty then Value.none
  else
    match listMinQ ((priceHist.filter (fun r => r.year == year)).map PriceRow.low),
          listMaxQ ((priceHist.filter (fun r => r.year == year)).map PriceRow.high) with
    | Option.some mn, Option.some mx =>
      Value.str (pyFloatStr mn ++ "-" ++ pyFloatStr mx)
    | _, _ => Value.none

/-! ## Provider inputs (yfinance Ticker) -/

/-- The summary/snapshot record ticker.info, restricted to the keys the
assembler reads; a missing key is none (`info.get`).  The python key
payoutRatio is the field `payoutRatioInfo`. -/
structure Info where
  regularMarketPrice : Option ℚ := Option.none
  sharesOutstanding : Option ℚ := Option.none
  trailingEps : Option ℚ := Option.none
  totalRevenue : Option ℚ := Option.none
  operatingMargins : Option ℚ := Option.none
  netIncomeToCommon : Option ℚ := Option.none
  netIncome : Option ℚ := Option.none
  returnOnEquity : Option ℚ := Option.none
  profitMargins : Option ℚ := Option.none
  payoutRatioInfo : Option ℚ := Option.none
  marketCap : Option ℚ := Option.none
  beta : Option ℚ := Option.none
  trailingPE : Option ℚ := Option.none
  forwardPE : Option ℚ := Option.none
  fiftyTwoWeekLow : Option ℚ := Option.none
  fiftyTwoWeekHigh : Option ℚ := Option.none
  lastDividendValue : Option ℚ := Option.none
  dividendRate : Option ℚ := Option.none
  forwardDividendRate : Option ℚ := Option.none
  lastSplitFactor : Option String := Option.none
  lastSplitDate : Option String := Option.none

/-- Everything one run of the assembler fetches from the provider for one
ticker.  `earnings_history` is the first non-empty frame of the attribute
probing loop (income_stmt, earnings, earnings_history,
quarterly_financials); `income_stmt` backs the getattr fallback of the EPS
else-branch. -/
structure ProviderData where
  income_statement : Option Statement := Option.none
  balance_sheet : Option Statement := Option.none
  earnings_history : Option Statement := Option.none
  income_stmt : Option Statement := Option.none
  info : Info := {}
  price_hist : Option (List PriceRow) := Option.none
  market_hist : Option (List PriceRow) := Option.none

/-! ## The assembled DataFrame -/

/-- A column key of the assembled frame.  The three metadata columns get
dedicated keys (pandas labels the first one with the ticker string itself;
a ticker spelled like an existing column label would make the python
insert raise, a corner the model does not reproduce). -/
inductive Col where
  | tickerCol : Col
  | asOf : Col
  | codeYear : Col
  | year (y : Int) : Col
  | actual : Col
deriving DecidableEq

/-- The value-column order cols_order = YEARS_TO_EXTRACT + ['actual']. -/
def valueCols (years : List Int) : List Col :=
  years.map Col.year ++ [Col.actual]

/-- The assembled frame: ordered column keys and ordered label × cells
rows. -/
structure DF where
  cols : List Col
  rows : List (String × (Col → Value))

/-- df.at[name, c], none when the row is absent. -/
def DF.cell (df : DF) (name : String) (c : Col) : Value :=
  match df.rows.find? (fun r => r.1 == name) with
  | Option.none => Value.none
  | Option.some r => r.2 c

/-- result_df.loc[name] = series: overwrite an existing row in place or
append a new one (pandas enlarges on a missing label). -/
def DF.setRow (df : DF) (name : String) (f : Col → Value) : DF :=
  if df.rows.any (fun r => r.1 == name) then
    { df with rows := df.rows.map (fun r => if r.1 == name then (name, f) else r) }
  else
    { df with rows := df.rows ++ [(name, f)] }

/-- The reindexed row function for one label: the existing row, or an
all-NaN row when the frame lacks the label. -/
def reindexFn (df : DF) (n : String) : String × (Col → Value) :=
  (n, match df.rows.find? (fun r => r.1 == n) with
      | Option.some r => r.2
      | Option.none => fun _ => Value.none)

/-- result_df.reindex(index=names): exactly the requested labels in order;
labels the frame lacks become all-NaN rows, extra labels are dropped. -/
def reindexRows (df : DF) (names : List String) : DF :=
  { cols := df.cols, rows := names.map (reindexFn df) }

/-- One row restricted to the surviving columns. -/
def selectFn (df : DF) (r : String × (Col → Value)) : String × (Col → Value) :=
  (r.1, fun c => if c ∈ df.cols then r.2 c else Value.none)

/-- The column fixing step (add any missing cols_order column as all-None,
then select cols_order): the column list becomes exactly `cols`. -/
def selectCols (df : DF) (cols : List Col) : DF :=
  { cols := cols, rows := df.rows.map (selectFn df) }

/-- One row extended with the three metadata cells. -/
def metaFn (asOfStr : String) (r : String × (Col → Value)) :
    String × (Col → Value) :=
  (r.1, fun c => match c with
    | Col.tickerCol => Value.none
    | Col.asOf => Value.str asOfStr
    | Col.codeYear => Value.str r.1
    | c2 => r.2 c2)

/-- The three metadata insertions: a pd.NA ticker column, the constant
as-of string, and the row-label echo column. -/
def insertMeta (df : DF) (asOfStr : String) : DF :=
  { cols := Col.tickerCol :: Col.asOf :: Col.codeYear :: df.cols,
    rows := df.rows.map (metaFn asOfStr) }

/-! ## The row builders of get_annual_fundamentals -/

/-- Build the python dict {y: g(y) for y in years} in loop order. -/
def yearsDict (years : List Int) (g : Int → Value) : List (Int × Value) :=
  years.foldl (fun acc y => dictSet acc y (g y)) []

/-- A row series of per-year values plus an actual snapshot, read through
pandas alignment (years the dict lacks become NaN). -/
def yearsActualRow (d : List (Int × Value)) (act : Value) : Col → Value :=
  fun c => match c with
  | Col.year y => dictGet d y
  | Col.actual => act
  | _ => Value.none

/-- EPS candidate row names probed when the earnings frame has date
columns. -/
def eps1Cands : List String :=
  ["Basic EPS", "Diluted EPS", "EPS", "Earnings Per Share", "basicEPS", "dilutedEPS"]

/-- EPS candidate row names of the income_stmt fallback branch. -/
def eps2Cands : List String :=
  ["Basic EPS", "Diluted EPS", "DilutedEPS", "BasicEPS"]

/-- The per-year EPS dict: probe the earnings frame when its first column
is date-like, otherwise fall back to ticker.income_stmt (or the income
statement) per year. -/
def epsDataDict (pd : ProviderData) (years : List Int) : List (Int × Value) :=
  match pd.earnings_history with
  | Option.none => []
  | Option.some eh =>
    if (match eh.cols.head? with
        | Option.some k => k.year?.isSome
        | Option.none => false) then
      stmtDict (Option.some eh) years (fun s d =>
        Value.ofQ? (eps1Cands.findSome? (fun c => safe_get_value s c d)))
    else
      match (match pd.income_stmt with
             | Option.some s => Option.some s
             | Option.none => pd.income_statement) with
      | Option.some inc =>
        stmtDict (Option.some inc) years (fun s d =>
          Value.ofQ? (eps2Cands.findSome? (fun c => get_value_candidates s [c] d)))
      | Option.none => []

/-- Candidate row names for total revenue. -/
def totalRevCands : List String := ["Total Revenue", "totalRevenue", "TotalRevenue"]

/-- Candidate row names for cost of revenue. -/
def costRevCands : List String :=
  ["Cost Of Revenue", "Cost of Revenue", "costOfRevenue", "CostOfRevenue"]

/-- Candidate row names for operating expense. -/
def opExpCands : List String :=
  ["Operating Expense", "Operating Expenses", "OperatingIncome", "Operating Income",
   "operatingExpense", "operatingExpenses"]

/-- Candidate row names for net income on the netIncome row. -/
def netIncomeRowCands : List String :=
  ["Net Income", "NetIncome", "netIncome", "Net Income Applicable To Common Shares",
   "NetIncomeLoss"]

/-- The dividends-and-splits row: per-year composite cells from the price
history, and the snapshot dict stored under the keys lastDividend /
lastSplit. -/
def divsplitRow (pd : ProviderData) : Col → Value :=
  fun c => match c with
  | Col.year y =>
    (match pd.price_hist with
     | Option.some ph => divsplitCell ph y
     | Option.none => Value.none)
  | Col.actual =>
    Value.dict
      [("lastDividend", Value.ofQ?
          (orQ pd.info.lastDividendValue
            (orQ pd.info.dividendRate pd.info.forwardDividendRate))),
       ("lastSplit", Value.ofS? (orS pd.info.lastSplitFactor pd.info.lastSplitDate))]
  | _ => Value.none

/-- The annual dividend sum read by the payout block: none when there is no
price frame or the year has no bars. -/
def annualDivSum (priceHist? : Option (List PriceRow)) (y : Int) : Option ℚ :=
  match priceHist? with
  | Option.some ph =>
    let rows := ph.filter (fun r => r.year == y)
    if rows.isEmpty then Option.none
    else Option.some ((rows.map PriceRow.dividends).sum)
  | Option.none => Option.none

/-- The market-cap cell: sharesOutstanding × year-end close, under python
truthiness of both factors (None and 0 both fail the guard). -/
def marketcapCell (pd : ProviderData) (y : Int) : Value :=
  let closePrice := match pd.price_hist with
    | Option.some ph => get_year_end_price_series ph y
    | Option.none => Option.none
  match pd.info.sharesOutstanding, closePrice with
  | Option.some s, Option.some p =>
    if s ≠ 0 ∧ p ≠ 0 then Value.num (s * p) else Value.none
  | _, _ => Value.none

/-- The actual cell of the 52WeekRange row: the info fiftyTwoWeek bounds
under python truthiness. -/
def rangeActualCell (info : Info) : Value :=
  match info.fiftyTwoWeekLow, info.fiftyTwoWeekHigh with
  | Option.some l, Option.some h =>
    if l ≠ 0 ∧ h ≠ 0 then Value.str (pyFloatStr l ++ "-" ++ pyFloatStr h) else Value.none
  | _, _ => Value.none

/-! Balance-sheet candidate lists (src/data_fetcher.py, balance block). -/

/-- Candidates for cash and equivalents. -/
def cashCands : List String :=
  ["Cash And Cash Equivalents", "Cash And Cash Equivalents (Total)", "Cash", "cash"]

/-- Candidates for total assets. -/
def taCands : List String := ["Total Assets", "totalAssets", "TotalAssets"]

/-- Candidates for total liabilities. -/
def tlCands : List String :=
  ["Total Liab", "Total Liabilities", "totalLiab", "totalLiabilities"]

/-- Candidates for total current assets. -/
def tcaCands : List String :=
  ["Total Current Assets", "TotalCurrentAssets", "totalCurrentAssets"]

/-- Candidates for total current liabilities. -/
def tclCands : List String :=
  ["Total Current Liabilities", "TotalCurrentLiabilities", "totalCurrentLiabilities"]

/-- Candidates for intangible assets. -/
def iaCands : List String :=
  ["Intangible Assets", "intangibleAssets", "Goodwill And Intangible Assets"]

/-- Candidates for goodwill. -/
def gwCands : List String := ["Goodwill", "goodWill"]

/-- Candidates for long-term debt. -/
def ltdCands : List String := ["Long Term Debt", "Long-term Debt", "longTermDebt"]

/-- Candidates for short-term debt. -/
def stdCands : List String :=
  ["Short Long Term Debt", "Short Term Debt", "Short-term Debt", "shortTermDebt"]

/-- Candidates for the ordinary share count, resolved against the income
statement at the balance-sheet date. -/
def ordShCands : List String :=
  ["Basic Average Shares", "Basic Average Shares (Shares)", "BasicAverageShares",
   "Basic EPS Shares", "Basic Shares", "Weighted Average Shares",
   "WeightedAverageShares"]

/-- safe_bs_get: resolve a candidate list on the balance sheet at a date. -/
def safe_bs_get (bal : Statement) (cands : List String) (d : DKey) : Option ℚ :=
  get_value_candidates_normalized (Option.some bal) cands d

/-- Working capital body: total current assets − total current
liabilities, None when either is missing. -/
def workingCapVal (tca tcl : Option ℚ) : Value :=
  match tca, tcl with
  | Option.some a, Option.some b => Value.num (a - b)
  | _, _ => Value.none

/-- Invested capital body: total assets − (current liabilities, falling
back to total liabilities, defaulting to 0) − cash (defaulting to 0). -/
def investedCapVal (ta tcl tl cash : Option ℚ) : Value :=
  match ta with
  | Option.some a =>
    let usedLiab := match tcl with
      | Option.some x => x
      | Option.none => (match tl with | Option.some x => x | Option.none => 0)
    Value.num (a - usedLiab - (match cash with | Option.some c => c | Option.none => 0))
  | Option.none => Value.none

/-- Total debts body: the sum of whichever debt pieces resolve, None when
neither does. -/
def totalDebtsVal (ltd std : Option ℚ) : Value :=
  match ltd, std with
  | Option.some a, Option.some b => Value.num (a + b)
  | Option.some a, Option.none => Value.num a
  | Option.none, Option.some b => Value.num b
  | Option.none, Option.none => Value.none

/-- Net tangible assets body: total assets − intangibles (default 0) −
goodwill (default 0), None without total assets. -/
def netTangibleVal (ta ia gw : Option ℚ) : Value :=
  match ta with
  | Option.some a =>
    Value.num (a - (match ia with | Option.some x => x | Option.none => 0)
                 - (match gw with | Option.some x => x | Option.none => 0))
  | Option.none => Value.none

/-! ## get_annual_fundamentals (src/data_fetcher.py) -/

/-- The income statement is None or empty (first half of the abort
guard). -/
def incomeUnavailable (pd : ProviderData) : Bool :=
  match pd.income_statement with
  | Option.none => true
  | Option.some s => s.isEmpty

/-- The price history is None or empty (second half of the abort guard). -/
def priceUnavailable (pd : ProviderData) : Bool :=
  match pd.price_hist with
  | Option.none => true
  | Option.some l => l.isEmpty

/-- Run a list of loc row assignments against a frame, in order. -/
def applyUpdates (df : DF) (us : List (String × (Col → Value))) : DF :=
  us.foldl (fun d u => d.setRow u.1 u.2) df

/-- The row assignments of get_annual_fundamentals in source order (the
rows "forwardDividendRate" and "total debts" are not in CSV_ROW_NAMES, so
these two loc assignments enlarge the frame and the final reindex drops
them again). -/
def assemblyUpdates (years : List Int) (pd : ProviderData) :
    List (String × (Col → Value)) :=
  let info := pd.info
  let inc? := pd.income_statement
  let bal? := pd.balance_sheet
  let epsData := epsDataDict pd years
  [ ("EPS", yearsActualRow epsData (Value.ofQ? info.trailingEps)),
    ("totalRevenue",
      yearsActualRow
        (stmtDict inc? years (fun s d =>
          Value.ofQ? (get_value_candidates_normalized (Option.some s) totalRevCands d)))
        (Value.ofQ? info.totalRevenue)),
    ("costOfRevenue",
      yearsActualRow
        (stmtDict inc? years (fun s d =>
          Value.ofQ? (get_value_candidates_normalized (Option.some s) costRevCands d)))
        Value.none),
    ("operatingExpense",
      yearsActualRow
        (stmtDict inc? years (fun s d =>
          Value.ofQ? (get_value_candidates_normalized (Option.some s) opExpCands d)))
        (Value.ofQ? info.operatingMargins)),
    ("netIncome",
      yearsActualRow
        (stmtDict inc? years (fun s d =>
          Value.ofQ? (get_value_candidates_normalized (Option.some s) netIncomeRowCands d)))
        (Value.ofQ? (orQ info.netIncomeToCommon info.netIncome))),
    ("ROE",
      yearsActualRow
        (calculate_roe
          (match inc? with | Option.some s => s | Option.none => emptyStatement)
          (match bal? with | Option.some s => s | Option.none => emptyStatement)
          years)
        (Value.ofQ? info.returnOnEquity)),
    ("profitMargin",
      yearsActualRow
        (stmtDict inc? years (fun s d =>
          profitVal (get_value_candidates_normalized (Option.some s) roeNetIncomeCands d)
                    (get_value_candidates_normalized (Option.some s) totalRevCands d)))
        (Value.ofQ? info.profitMargins)),
    ("dividend_and_split", divsplitRow pd),
    ("payoutRatio",
      yearsActualRow
        (yearsDict years (fun y =>
          payoutVal (dictGet epsData y).toQ? (annualDivSum pd.price_hist y)))
        (Value.ofQ? info.payoutRatioInfo)),
    ("marketCap",
      yearsActualRow (yearsDict years (marketcapCell pd)) (Value.ofQ? info.marketCap)),
    ("beta",
      yearsActualRow
        (yearsDict years (betaCell pd.price_hist pd.market_hist))
        (Value.ofQ? info.beta)),
    ("peRatio", yearsActualRow [] (Value.ofQ? info.trailingPE)),
    ("trailingPE", yearsActualRow [] (Value.ofQ? info.trailingPE)),
    ("forwardPE", yearsActualRow [] (Value.ofQ? info.forwardPE)),
    ("forwardDividendRate",
      yearsActualRow [] (Value.ofQ? (orQ info.forwardDividendRate info.dividendRate))),
    ("52WeekRange",
      yearsActualRow
        (yearsDict years (fun y =>
          match pd.price_hist with
          | Option.some ph => rangeCell ph y
          | Option.none => Value.none))
        (rangeActualCell info)),
    ("cash cash equivalence",
      yearsActualRow
        (stmtDict bal? years (fun s d => Value.ofQ? (safe_bs_get s cashCands d)))
        Value.none),
    ("total assets",
      yearsActualRow
        (stmtDict bal? years (fun s d => Value.ofQ? (safe_bs_get s taCands d)))
        Value.none),
    ("total liabilities",
      yearsActualRow
        (stmtDict bal? years (fun s d => Value.ofQ? (safe_bs_get s tlCands d)))
        Value.none),
    ("working capital",
      yearsActualRow
        (stmtDict bal? years (fun s d =>
          workingCapVal (safe_bs_get s tcaCands d) (safe_bs_get s tclCands d)))
        Value.none),
    ("invested capital",
      yearsActualRow
        (stmtDict bal? years (fun s d =>
          investedCapVal (safe_bs_get s taCands d) (safe_bs_get s tclCands d)
            (safe_bs_get s tlCands d) (safe_bs_get s cashCands d)))
        Value.none),
    ("total debts",
      yearsActualRow
        (stmtDict bal? years (fun s d =>
          totalDebtsVal (safe_bs_get s ltdCands d) (safe_bs_get s stdCands d)))
        Value.none),
    ("ordinary shared number",
      yearsActualRow
        (stmtDict bal? years (fun _ d =>
          Value.ofQ? (get_value_candidates_normalized inc? ordShCands d)))
        (Value.ofQ? info.sharesOutstanding)),
    ("net tangible assets",
      yearsActualRow
        (stmtDict bal? years (fun s d =>
          netTangibleVal (safe_bs_get s taCands d) (safe_bs_get s iaCands d)
            (safe_bs_get s gwCands d)))
        Value.none) ]

/-- The as-of metadata string: current date, a pipe, and the f-string
rendering of regularMarketPrice (literally "None" when it is missing). -/
def asOfString (currentDateStr : String) (info : Info) : String :=
  currentDateStr ++ " | " ++
    (match info.regularMarketPrice with
     | Option.some q => pyFloatStr q
     | Option.none => "None")

/-- An all-NaN labelled row of the pre-created frame. -/
def initRowFn (n : String) : String × (Col → Value) :=
  (n, fun _ => Value.none)

/-- The empty frame pre-created with index CSV_ROW_NAMES and columns
cols_order (every cell NaN). -/
def initialFrame (years : List Int) : DF :=
  { cols := valueCols years, rows := CSV_ROW_NAMES.map initRowFn }

/-- The assembler.  Returns none (a fetch failure) exactly when both the
income statement and the price history are empty or unavailable; otherwise
the fully assembled frame: the row assignments in source order, the
reindex to CSV_ROW_NAMES, the column fixing, and the three metadata
insertions.  The python-level catch-all except is not modelled: every
embedded operation is total. -/
def get_annual_fundamentals (years : List Int) (currentDateStr : String)
    (pd : ProviderData) : Option DF :=
  if incomeUnavailable pd && priceUnavailable pd then Option.none
  else
    Option.some (insertMeta
      (selectCols
        (reindexRows (applyUpdates (initialFrame years) (assemblyUpdates years pd))
          CSV_ROW_NAMES)
        (valueCols years))
      (asOfString currentDateStr pd.info))


/-! ## Report writer (src/file_writer.py) -/

/-- python str() of a non-dict cell value (quote and brace characters of
the container reprs are written with escapes). -/
def pyStrAtom : Value → String
  | Value.none => "None"
  | Value.num q => pyFloatStr q
  | Value.str s => s
  | Value.strList l =>
    "[" ++ joinWith ", " (l.map (fun s => "\x27" ++ s ++ "\x27")) ++ "]"
  | Value.dict _ => "\x7b\x7d"

/-- python str() of a cell value.  The program only ever builds dicts whose
values are atoms, so one level of dict rendering is exact. -/
def pyStrV : Value → String
  | Value.dict entries =>
    "\x7b" ++ joinWith ", "
      (entries.map (fun e => "\x27" ++ e.1 ++ "\x27: " ++ pyStrAtom e.2)) ++ "\x7d"
  | v => pyStrAtom v

/-- The numeric core of format_number_for_human: scale to millions or
billions and print with two decimals, thousands separators and the unit
suffix. -/
def fmtHumanNum (v : ℚ) (scale : Option String) : String :=
  match scale with
  | Option.some "M" => commaFmt2 (v / 1000000) ++ " M"
  | Option.some "B" => commaFmt2 (v / 1000000000) ++ " B"
  | _ => commaFmt2 v

/-- format_number_for_human of the writer: empty on null, formatted number
on floats (and float-parsable strings), str(val) otherwise. -/
def format_number_for_human (val : Value) (scale : Option String) : String :=
  match val with
  | Value.none => ""
  | Value.num v => fmtHumanNum v scale
  | Value.str s =>
    (match parseFloat s with
     | Option.some v => fmtHumanNum v scale
     | Option.none => s)
  | v => pyStrV v

/-- format_percent of the writer: empty on null, ×100 with two decimals
and a percent sign on floats (and float-parsable strings), str(val)
otherwise. -/
def format_percent (val : Value) : String :=
  match val with
  | Value.none => ""
  | Value.num v => fmtFixed 2 (v * 100) ++ "%"
  | Value.str s =>
    (match parseFloat s with
     | Option.some v => fmtFixed 2 (v * 100) ++ "%"
     | Option.none => s)
  | v => pyStrV v

/-- format_52week_range of the writer: re-print a "min-max" string with
one-decimal endpoints, falling back to the unchanged string when the parse
fails; empty on null. -/
def format_52week_range (val : Value) : String :=
  match val with
  | Value.none => ""
  | v =>
    let s := pyStrV v
    if strContains s "-" then
      match pySplitOn s '-' with
      | p0 :: p1 :: _ =>
        (match parseFloat p0, parseFloat p1 with
         | Option.some a, Option.some b => fmtFixed 1 a ++ "-" ++ fmtFixed 1 b
         | _, _ => s)
      | _ => s
    else
      match parseFloat s with
      | Option.some n => fmtFixed 1 n
      | Option.none => s

/-- The representative-values section metrics (dividend_and_split is
expanded separately). -/
def rep_metrics : List String :=
  ["marketCap", "beta", "peRatio", "forwardDividendYield", "EPS", "52WeekRange",
   "trailingPE", "forwardPE", "profitMargin", "payoutRatio", "ROE"]

/-- The financials section metrics. -/
def fin_metrics : List String :=
  ["totalRevenue", "totalRevenueChange", "costOfRevenue", "operatingExpense",
   "netIncome", "EBITDA", "net debts over EBITDA"]

/-- The balance-sheets section metrics. -/
def bs_metrics : List String :=
  ["cash cash equivalence", "total assets", "total liabilities", "working capital",
   "invested capital", "net debts", "ordinary shared number", "net tangible assets"]

/-- One output cell of the representative-values section. -/
def repCellOut (human : Bool) (m : String) (val : Value) : Value :=
  if human then
    if m == "marketCap" then Value.str (format_number_for_human val (Option.some "M"))
    else if m == "totalRevenue" || m == "costOfRevenue" then
      Value.str (format_number_for_human val (Option.some "M"))
    else if m == "operatingExpense" || m == "netIncome" then
      Value.str (format_number_for_human val (Option.some "M"))
    else if m == "profitMargin" || m == "ROE" || m == "payoutRatio" ||
            m == "forwardDividendYield" then
      Value.str (format_percent val)
    else if m == "EPS" || m == "trailingPE" || m == "forwardPE" || m == "beta" ||
            m == "peRatio" then
      Value.str (format_number_for_human val Option.none)
    else if m == "52WeekRange" then Value.str (format_52week_range val)
    else if val.isna then Value.str "" else Value.str (pyStrV val)
  else
    if val.isna then Value.str "" else val

/-- One metric row of the representative-values section. -/
def repRow (df : DF) (colsOrder : List Col) (human : Bool) (m : String) : List Value :=
  Value.str m :: colsOrder.map (fun c => repCellOut human m (df.cell m c))

/-- The expanded dividends output row (both variants): the writer reads the
key "dividends" out of the composite cell. -/
def dividendsOutRow (df : DF) (colsOrder : List Col) (human : Bool) : List Value :=
  Value.str "dividends" :: colsOrder.map (fun c =>
    let raw := df.cell "dividend_and_split" c
    let div := raw.dictGetS "dividends"
    if human then
      (if div.isna then Value.str "" else Value.str (format_number_for_human div Option.none))
    else
      (if div.isna then Value.str "" else div))

/-- The expanded splits output row (both variants): the writer reads the
key "splits" out of the composite cell and joins lists with a semicolon. -/
def splitsOutRow (df : DF) (colsOrder : List Col) : List Value :=
  Value.str "splits" :: colsOrder.map (fun c =>
    match (df.cell "dividend_and_split" c).dictGetS "splits" with
    | Value.strList l => Value.str (if l.isEmpty then "" else joinWith ";" l)
    | Value.none => Value.str ""
    | v => Value.str (pyStrV v))

/-- One output cell of the financials section. -/
def finCellOut (human : Bool) (m : String) (val : Value) : Value :=
  if human && (m == "totalRevenue" || m == "costOfRevenue" || m == "operatingExpense" ||
               m == "netIncome" || m == "EBITDA") then
    Value.str (format_number_for_human val (Option.some "M"))
  else if human && (m == "totalRevenueChange" || m == "net debts over EBITDA") then
    Value.str (format_percent val)
  else if val.isna then Value.str "" else val

/-- One metric row of the financials section. -/
def finRow (df : DF) (colsOrder : List Col) (human : Bool) (m : String) : List Value :=
  Value.str m :: colsOrder.map (fun c => finCellOut human m (df.cell m c))

/-- One output cell of the balance-sheets section. -/
def bsCellOut (human : Bool) (m : String) (val : Value) : Value :=
  if human && (m == "cash cash equivalence" || m == "total assets" ||
               m == "invested capital" || m == "net debts" ||
               m == "net tangible assets" || m == "total liabilities" ||
               m == "working capital") then
    Value.str (format_number_for_human val (Option.some "M"))
  else if val.isna then Value.str "" else val

/-- One metric row of the balance-sheets section. -/
def bsRow (df : DF) (colsOrder : List Col) (human : Bool) (m : String) : List Value :=
  Value.str m :: colsOrder.map (fun c => bsCellOut human m (df.cell m c))

/-- A section-header cell for a cols_order label. -/
def colHeader : Col → Value
  | Col.year y => Value.num (y : ℚ)
  | Col.actual => Value.str "actual"
  | _ => Value.str ""

/-- The ticker / as-of date / as-of price header row: the as_of string of
the first data row is split at its first pipe character. -/
def csvHeaderRow (df : DF) (ticker : String) : List Value :=
  let asOfRaw : Value :=
    if Col.asOf ∈ df.cols then
      (match df.rows.head? with
       | Option.some r => r.2 Col.asOf
       | Option.none => Value.str "")
    else Value.str ""
  let cells : String × String :=
    match asOfRaw with
    | Value.str s =>
      if strContains s "|" then
        let ps := pySplitOn s '|'
        (pyStrip (ps.headD ""), pyStrip (joinWith "|" ps.tail))
      else ("", "")
    | _ => ("", "")
  [Value.str ticker, Value.str cells.1, Value.str cells.2]

/-- write_grouped_csv: the full row list of one CSV variant. -/
def write_grouped_csv (df : DF) (ticker : String) (years : List Int)
    (human : Bool) : List (List Value) :=
  let colsOrder := valueCols years
  [csvHeaderRow df ticker, []] ++
  [Value.str "Valores representativos" :: colsOrder.map colHeader] ++
  rep_metrics.map (repRow df colsOrder human) ++
  [dividendsOutRow df colsOrder human, splitsOutRow df colsOrder] ++
  [[], Value.str "financials" :: colsOrder.map colHeader] ++
  fin_metrics.map (finRow df colsOrder human) ++
  [[], Value.str "balance sheets" :: colsOrder.map colHeader] ++
  bs_metrics.map (bsRow df colsOrder human)

/-! ## CLI pipeline (src/main.py) -/

/-- A python exception class raised inside run_pipeline. -/
inductive PyExc where
  | typeError : PyExc
  | valueError : PyExc
  | attributeError : PyExc
deriving DecidableEq

/-- What one run_pipeline call did: whether any CSV was written, and the
exception it raised, if any. -/
structure RunOutcome where
  csvWritten : Bool
  exc : Option PyExc
deriving DecidableEq

/-- run_pipeline, applied to the value returned by the fetch.  The source
line `data_df, red_cells, green_cells = get_annual_fundamentals(ticker)`
unpacks the single returned object into three names: a None result raises
TypeError; a DataFrame result is iterated over its column labels, raising
ValueError unless there are exactly three columns, in which case data_df
is bound to a column-label string and the later `data_df.empty` raises
AttributeError.  Every path raises before save_to_csv, so no CSV is ever
written. -/
def run_pipeline (fetchResult : Option DF) : RunOutcome :=
  match fetchResult with
  | Option.none => { csvWritten := false, exc := Option.some PyExc.typeError }
  | Option.some df =>
    if df.cols.length == 3 then
      { csvWritten := false, exc := Option.some PyExc.attributeError }
    else
      { csvWritten := false, exc := Option.some PyExc.valueError }

/-- The tickers-file parsing of main: strip each line, drop blanks and
comment lines. -/
def parseTickers (fileLines : List String) : List String :=
  (fileLines.map pyStrip).filter (fun l => !(l == "") && !(pyStartsWith l "#"))

/-- The batch loop body: tickers are processed in order until a
run_pipeline call raises; the exception is caught by the except wrapping
the whole loop in main, so the remaining tickers are never attempted.
Returns the tickers whose run_pipeline call started, and whether the batch
was aborted by an exception. -/
def batchGo (fetch : String → Option DF) : List String → List String × Bool
  | [] => ([], false)
  | t :: ts =>
    match (run_pipeline (fetch t)).exc with
    | Option.some _ => ([t], true)
    | Option.none =>
      let r := batchGo fetch ts
      (t :: r.1, r.2)

/-- main with --tickers-file: an empty or comment-only file logs an error
and returns before any fetch; otherwise the batch loop runs. -/
def mainBatch (fetch : String → Option DF) (fileLines : List String) :
    List String × Bool :=
  let tickers := parseTickers fileLines
  if tickers.isEmpty then ([], false)
  else batchGo fetch tickers

/-! ## Concrete sample inputs used to evaluate the development -/

/-- A sample statement date column for 2021. -/
def dkey21 : DKey := DKey.date 2021 0

/-- A sample statement date column for 2022. -/
def dkey22 : DKey := DKey.date 2022 0

/-- A statement whose two labels collide after normalization ("Net Income"
and "net_income" both normalize to "netincome") with different values. -/
def stCollision : Statement :=
  { cols := [dkey21],
    rows := [("Net Income", fun d => if d = dkey21 then Option.some 1 else Option.none),
             ("net_income", fun d => if d = dkey21 then Option.some 2 else Option.none)] }

/-- A statement carrying the row label "totalRevenue" (the spec scenario
resolves it through the candidate "Total Revenue"). -/
def stNorm : Statement :=
  { cols := [dkey21],
    rows := [("totalRevenue", fun d => if d = dkey21 then Option.some 77 else Option.none)] }

/-- A one-bar price history whose low prints as "3.17" under str() but as
"3.2" under one-decimal formatting. -/
def phRange : List PriceRow :=
  [ { year := 2021, ord := 1, high := 4, low := 317 / 100, close := 4,
      dividends := 0, stockSplits := 0 } ]

/-- The sample income statement: revenue and net income for 2021/2022. -/
def incW : Statement :=
  { cols := [dkey21, dkey22],
    rows := [("Total Revenue", fun d => if d = dkey21 then Option.some 1000
                else if d = dkey22 then Option.some 1200 else Option.none),
             ("Net Income", fun d => if d = dkey21 then Option.some 100
                else if d = dkey22 then Option.some 150 else Option.none)] }

/-- The sample balance sheet: a nonzero equity figure each year. -/
def balW : Statement :=
  { cols := [dkey21, dkey22],
    rows := [("Total Stockholder Equity", fun d => if d = dkey21 then Option.some 500
                else if d = dkey22 then Option.some 600 else Option.none)] }

/-- The sample stock price history: three 2021 trading days with one
dividend and one split, one 2022 day. -/
def phW : List PriceRow :=
  [ { year := 2021, ord := 1, high := 11, low := 9, close := 10,
      dividends := 1 / 2, stockSplits := 0 },
    { year := 2021, ord := 2, high := 12, low := 10, close := 11,
      dividends := 0, stockSplits := 2 },
    { year := 2021, ord := 3, high := 13, low := 11, close := 12,
      dividends := 1 / 2, stockSplits := 0 },
    { year := 2022, ord := 4, high := 14, low := 12, close := 13,
      dividends := 0, stockSplits := 0 } ]

/-- The sample benchmark history: 2021 daily returns 1/10 and 1/5, giving
a nonzero sample variance. -/
def mhW : List PriceRow :=
  [ { year := 2021, ord := 1, high := 0, low := 0, close := 100,
      dividends := 0, stockSplits := 0 },
    { year := 2021, ord := 2, high := 0, low := 0, close := 110,
      dividends := 0, stockSplits := 0 },
    { year := 2021, ord := 3, high := 0, low := 0, close := 132,
      dividends := 0, stockSplits := 0 } ]

/-- The sample provider snapshot. -/
def infoW : Info :=
  { regularMarketPrice := Option.some 12, sharesOutstanding := Option.some 50,
    trailingEps := Option.some 3 }

/-- The sample provider data for one ticker. -/
def pdW : ProviderData :=
  { income_statement := Option.some incW,
    balance_sheet := Option.some balW,
    earnings_history := Option.some incW,
    info := infoW,
    price_hist := Option.some phW,
    market_hist := Option.some mhW }

/-- The sample year range. -/
def yearsW : List Int := [2021, 2022]

/-! ## Helper lemmas about the dict and frame operations -/

theorem find?_map_pred {α β : Type} (g : α → β) (pa : α → Bool) (pb : β → Bool)
    (hp : ∀ a, pb (g a) = pa a) (l : List α) :
    (l.map g).find? pb = (l.find? pa).map g := by
  induction l with
  | nil => rfl
  | cons a l ih =>
    simp only [List.map_cons, List.find?_cons, hp a]
    cases pa a
    · exact ih
    · rfl

theorem dictGet_dictSet_self (d : List (Int × Value)) (k : Int) (v : Value) :
    dictGet (dictSet d k v) k = v := by
  have hp : ∀ e : Int × Value,
      ((if e.1 == k then (k, v) else e).1 == k) = (e.1 == k) := by
    intro e
    by_cases h : (e.1 == k) = true
    · simp [h]
    · simp [h]
  unfold dictGet dictSet
  by_cases hany : d.any (fun e => e.1 == k) = true
  · rw [if_pos hany,
      find?_map_pred (fun e => if e.1 == k then (k, v) else e)
        (fun e => e.1 == k) (fun e => e.1 == k) hp d]
    obtain ⟨e, he, hpe⟩ := List.any_eq_true.mp hany
    cases hf : d.find? (fun e => e.1 == k) with
    | none =>
      rw [List.find?_eq_none] at hf
      exact absurd hpe (hf e he)
    | some e' =>
      have hp' := List.find?_some hf
      simp only [Option.map_some']
      simp [hp']
  · rw [if_neg hany, List.find?_append]
    have hnone : d.find? (fun e => e.1 == k) = Option.none := by
      rw [List.find?_eq_none]
      intro x hx
      exact (List.any_eq_false.mp (Bool.eq_false_iff.mpr hany)) x hx
    rw [hnone, Option.none_or, List.find?_cons_of_pos _ (by simp)]

theorem dictGet_dictSet_ne (d : List (Int × Value)) (k1 k2 : Int) (v : Value)
    (h : k1 ≠ k2) : dictGet (dictSet d k2 v) k1 = dictGet d k1 := by
  have hp : ∀ e : Int × Value,
      ((if e.1 == k2 then (k2, v) else e).1 == k1) = (e.1 == k1) := by
    intro e
    by_cases he : (e.1 == k2) = true
    · have he' : e.1 = k2 := by simpa using he
      simp [he, he', beq_eq_false_iff_ne, Ne.symm h]
    · simp [he]
  unfold dictGet dictSet
  by_cases hany : d.any (fun e => e.1 == k2) = true
  · rw [if_pos hany,
      find?_map_pred (fun e => if e.1 == k2 then (k2, v) else e)
        (fun e => e.1 == k1) (fun e => e.1 == k1) hp d]
    cases hf : d.find? (fun e => e.1 == k1) with
    | none => rfl
    | some e' =>
      have hp' : e'.1 = k1 := by simpa using List.find?_some hf
      have hne : ¬((e'.1 == k2) = true) := by simp [hp', h]
      simp only [Option.map_some']
      rw [if_neg hne]
  · rw [if_neg hany, List.find?_append]
    have hsing : List.find? (fun e => e.1 == k1) [(k2, v)] = Option.none := by
      rw [List.find?_cons_of_neg _ (by simp [Ne.symm h]), List.find?_nil]
    rw [hsing]
    cases d.find? (fun e => e.1 == k1) <;> rfl

theorem dictGet_foldl_notMem (g : Int → Value) (zs : List Int) (init : List (Int × Value))
    (y : Int) (h : y ∉ zs) :
    dictGet (zs.foldl (fun acc y2 => dictSet acc y2 (g y2)) init) y = dictGet init y := by
  induction zs generalizing init with
  | nil => rfl
  | cons z zs ih =>
    have hyz : y ≠ z := fun hyz => h (hyz ▸ List.mem_cons_self z zs)
    have hzs : y ∉ zs := fun hm => h (List.mem_cons_of_mem z hm)
    simp only [List.foldl_cons]
    rw [ih (dictSet init z (g z)) hzs, dictGet_dictSet_ne init y z (g z) hyz]

theorem dictGet_foldl_mem (g : Int → Value) (years : List Int) (init : List (Int × Value))
    (y : Int) (h : y ∈ years) :
    dictGet (years.foldl (fun acc y2 => dictSet acc y2 (g y2)) init) y = g y := by
  induction years generalizing init with
  | nil => exact absurd h (List.not_mem_nil y)
  | cons z zs ih =>
    simp only [List.foldl_cons]
    by_cases hin : y ∈ zs
    · exact ih (dictSet init z (g z)) hin
    · have hyz : y = z := by
        rcases List.mem_cons.mp h with h2 | h2
        · exact h2
        · exact absurd h2 hin
      subst hyz
      rw [dictGet_foldl_notMem g zs (dictSet init y (g y)) y hin,
        dictGet_dictSet_self]

theorem dictGet_yearsDict (years : List Int) (g : Int → Value) (y : Int)
    (h : y ∈ years) : dictGet (yearsDict years g) y = g y :=
  dictGet_foldl_mem g years [] y h

theorem yearsActualRow_year (d : List (Int × Value)) (act : Value) (y : Int) :
    yearsActualRow d act (Col.year y) = dictGet d y := rfl

theorem DF.cell_setRow_self (df : DF) (n : String) (f : Col → Value) (c : Col) :
    (df.setRow n f).cell n c = f c := by
  have hp : ∀ r : String × (Col → Value),
      ((if r.1 == n then (n, f) else r).1 == n) = (r.1 == n) := by
    intro r
    by_cases h : (r.1 == n) = true
    · simp [h]
    · simp [h]
  unfold DF.setRow DF.cell
  by_cases hany : df.rows.any (fun r => r.1 == n) = true
  · rw [if_pos hany]
    simp only
    rw [find?_map_pred (fun r => if r.1 == n then (n, f) else r)
      (fun r => r.1 == n) (fun r => r.1 == n) hp df.rows]
    obtain ⟨r, hr, hpr⟩ := List.any_eq_true.mp hany
    cases hf : df.rows.find? (fun r => r.1 == n) with
    | none =>
      rw [List.find?_eq_none] at hf
      exact absurd hpr (hf r hr)
    | some r' =>
      have hp' := List.find?_some hf
      simp only [Option.map_some']
      simp [hp']
  · rw [if_neg hany]
    simp only
    rw [List.find?_append]
    have hnone : df.rows.find? (fun r => r.1 == n) = Option.none := by
      rw [List.find?_eq_none]
      intro x hx
      exact (List.any_eq_false.mp (Bool.eq_false_iff.mpr hany)) x hx
    rw [hnone, Option.none_or, List.find?_cons_of_pos _ (by simp)]

theorem DF.cell_setRow_ne (df : DF) (m n : String) (f : Col → Value) (c : Col)
    (h : m ≠ n) : (df.setRow n f).cell m c = df.cell m c := by
  have hp : ∀ r : String × (Col → Value),
      ((if r.1 == n then (n, f) else r).1 == m) = (r.1 == m) := by
    intro r
    by_cases he : (r.1 == n) = true
    · have he' : r.1 = n := by simpa using he
      simp [he, he', beq_eq_false_iff_ne, Ne.symm h]
    · simp [he]
  unfold DF.setRow DF.cell
  by_cases hany : df.rows.any (fun r => r.1 == n) = true
  · rw [if_pos hany]
    simp only
    rw [find?_map_pred (fun r => if r.1 == n then (n, f) else r)
      (fun r => r.1 == m) (fun r => r.1 == m) hp df.rows]
    cases hf : df.rows.find? (fun r => r.1 == m) with
    | none => rfl
    | some r' =>
      have hp' : r'.1 = m := by simpa using List.find?_some hf
      have hne : ¬((r'.1 == n) = true) := by simp [hp', h]
      simp only [Option.map_some']
      rw [if_neg hne]
  · rw [if_neg hany]
    simp only
    rw [List.find?_append]
    have hsing : List.find? (fun r => r.1 == m) [(n, f)] = Option.none := by
      rw [List.find?_cons_of_neg _ (by simp [Ne.symm h]), List.find?_nil]
    rw [hsing]
    cases df.rows.find? (fun r => r.1 == m) <;> rfl

theorem DF.cell_applyUpdates (df : DF) (us : List (String × (Col → Value)))
    (m : String) (c : Col) :
    (applyUpdates df us).cell m c =
      match us.reverse.find? (fun u => u.1 == m) with
      | Option.some u => u.2 c
      | Option.none => df.cell m c := by
  induction us generalizing df with
  | nil => rfl
  | cons u us ih =>
    simp only [applyUpdates, List.foldl_cons] at *
    rw [ih (df.setRow u.1 u.2)]
    simp only [List.reverse_cons, List.find?_append]
    cases hf : us.reverse.find? (fun w => w.1 == m) with
    | some w => rfl
    | none =>
      simp only [Option.none_or]
      by_cases hu : (u.1 == m) = true
      · rw [@List.find?_cons_of_pos _ (fun w => w.1 == m) u [] hu]
        have hm : u.1 = m := by simpa using hu
        rw [← hm]
        exact DF.cell_setRow_self df u.1 u.2 c
      · rw [@List.find?_cons_of_neg _ (fun w => w.1 == m) u [] hu, List.find?_nil]
        exact DF.cell_setRow_ne df m u.1 u.2 c
          (fun hmn => hu (by simp [hmn]))

theorem DF.cell_reindexRows (df : DF) (names : List String) (m : String) (c : Col)
    (h : m ∈ names) : (reindexRows df names).cell m c = df.cell m c := by
  unfold reindexRows DF.cell
  simp only
  rw [find?_map_pred (reindexFn df)
    (fun n => n == m) (fun r => r.1 == m) (fun a => rfl) names]
  cases hf : names.find? (fun n => n == m) with
  | none =>
    rw [List.find?_eq_none] at hf
    exact absurd (by simp : (m == m) = true) (hf m h)
  | some n2 =>
    have : n2 = m := by simpa using List.find?_some hf
    subst this
    simp only [Option.map_some']
    unfold reindexFn
    cases df.rows.find? (fun r => r.1 == n2) <;> rfl

theorem DF.cell_selectCols (df : DF) (cols : List Col) (m : String) (c : Col)
    (h : c ∈ df.cols) : (selectCols df cols).cell m c = df.cell m c := by
  unfold selectCols DF.cell
  simp only
  rw [find?_map_pred (selectFn df)
    (fun r => r.1 == m) (fun r => r.1 == m) (fun a => rfl) df.rows]
  cases df.rows.find? (fun r => r.1 == m) with
  | none => rfl
  | some r =>
    simp only [Option.map_some']
    unfold selectFn
    simp only
    rw [if_pos h]

theorem DF.cell_insertMeta (df : DF) (s : String) (m : String) (c : Col)
    (h : c = Col.actual ∨ ∃ y, c = Col.year y) :
    (insertMeta df s).cell m c = df.cell m c := by
  unfold insertMeta DF.cell
  simp only
  rw [find?_map_pred (metaFn s)
    (fun r => r.1 == m) (fun r => r.1 == m) (fun a => rfl) df.rows]
  cases df.rows.find? (fun r => r.1 == m) with
  | none => rfl
  | some r =>
    rcases h with h | ⟨y, h⟩ <;> subst h <;> rfl

theorem DF.cols_setRow (df : DF) (n : String) (f : Col → Value) :
    (df.setRow n f).cols = df.cols := by
  unfold DF.setRow
  split <;> rfl

theorem cols_applyUpdates (df : DF) (us : List (String × (Col → Value))) :
    (applyUpdates df us).cols = df.cols := by
  induction us generalizing df with
  | nil => rfl
  | cons u us ih =>
    simp only [applyUpdates, List.foldl_cons] at *
    rw [ih (df.setRow u.1 u.2), DF.cols_setRow]

theorem DF.cell_initialFrame (years : List Int) (m : String) (c : Col) :
    (initialFrame years).cell m c = Value.none := by
  unfold initialFrame DF.cell
  simp only
  rw [find?_map_pred initRowFn
    (fun n => n == m) (fun r => r.1 == m) (fun a => rfl) CSV_ROW_NAMES]
  cases CSV_ROW_NAMES.find? (fun n => n == m) <;> rfl

/-- gaf_some: the assembled frame of a successful run. -/
theorem gaf_eq_some_iff (years : List Int) (date : String) (pd : ProviderData)
    (df : DF) :
    get_annual_fundamentals years date pd = Option.some df ↔
      (incomeUnavailable pd && priceUnavailable pd) = false ∧
      df = insertMeta
        (selectCols
          (reindexRows (applyUpdates (initialFrame years) (assemblyUpdates years pd))
            CSV_ROW_NAMES)
          (valueCols years))
        (asOfString date pd.info) := by
  unfold get_annual_fundamentals
  by_cases h : (incomeUnavailable pd && priceUnavailable pd) = true
  · simp [h]
  · simp [h, Bool.eq_false_iff.mpr h, eq_comm]

/-- Reading a value cell through the metadata insertion, column fixing and
reindex steps reads the underlying assembled frame. -/
theorem cell_pipeline (dfA : DF) (names : List String) (cols : List Col) (s : String)
    (m : String) (c : Col) (hm : m ∈ names) (hcA : c ∈ dfA.cols)
    (hmeta : c = Col.actual ∨ ∃ y, c = Col.year y) :
    (insertMeta (selectCols (reindexRows dfA names) cols) s).cell m c =
      dfA.cell m c := by
  rw [DF.cell_insertMeta _ _ _ _ hmeta]
  rw [DF.cell_selectCols _ _ _ _ (show c ∈ (reindexRows dfA names).cols from hcA)]
  rw [DF.cell_reindexRows _ _ _ _ hm]

/-- Reading one value cell of a successful run reduces to the last loc
assignment of that row label (or NaN when the label was never assigned). -/
theorem gaf_cell (years : List Int) (date : String) (pd : ProviderData) (df : DF)
    (h : get_annual_fundamentals years date pd = Option.some df)
    (m : String) (c : Col)
    (hm : m ∈ CSV_ROW_NAMES)
    (hc : c = Col.actual ∨ ∃ y, c = Col.year y ∧ y ∈ years) :
    df.cell m c =
      match (assemblyUpdates years pd).reverse.find? (fun u => u.1 == m) with
      | Option.some u => u.2 c
      | Option.none => Value.none := by
  obtain ⟨-, hdf⟩ := (gaf_eq_some_iff years date pd df).mp h
  subst hdf
  have hcvc : c ∈ valueCols years := by
    rcases hc with hc | ⟨y, hc, hy⟩
    · subst hc
      exact List.mem_append_right _ (List.mem_singleton.mpr rfl)
    · subst hc
      exact List.mem_append_left _ (List.mem_map_of_mem Col.year hy)
  rw [cell_pipeline _ _ _ _ m c hm
    (by rw [cols_applyUpdates]; exact hcvc)
    (by rcases hc with hc | ⟨y, hc, _⟩
        · exact Or.inl hc
        · exact Or.inr ⟨y, hc⟩)]
  rw [DF.cell_applyUpdates]
  cases (assemblyUpdates years pd).reverse.find? (fun u => u.1 == m) with
  | none => exact DF.cell_initialFrame years m c
  | some u => rfl

theorem mem_valueCols (years : List Int) (c : Col) :
    c ∈ valueCols years ↔ c = Col.actual ∨ ∃ y, c = Col.year y ∧ y ∈ years := by
  unfold valueCols
  rw [List.mem_append]
  constructor
  · rintro (h | h)
    · obtain ⟨y, hy, rfl⟩ := List.mem_map.mp h
      exact Or.inr ⟨y, rfl, hy⟩
    · exact Or.inl (List.mem_singleton.mp h)
  · rintro (rfl | ⟨y, rfl, hy⟩)
    · exact Or.inr (List.mem_singleton.mpr rfl)
    · exact Or.inl (List.mem_map_of_mem Col.year hy)

theorem map_fst_eq_self (g : String → String × (Col → Value))
    (hg : ∀ n, (g n).1 = n) (l : List String) : (l.map g).map Prod.fst = l := by
  induction l with
  | nil => rfl
  | cons n l ih => simp only [List.map_cons, hg, ih]

theorem map_fst_map_pres (g : (String × (Col → Value)) → (String × (Col → Value)))
    (hg : ∀ r, (g r).1 = r.1) (l : List (String × (Col → Value))) :
    (l.map g).map Prod.fst = l.map Prod.fst := by
  induction l with
  | nil => rfl
  | cons r l ih => simp only [List.map_cons, hg, ih]

/-- The row labels of a successful run are exactly CSV_ROW_NAMES, in
order. -/
theorem gaf_rows_fst (years : List Int) (date : String) (pd : ProviderData) (df : DF)
    (h : get_annual_fundamentals years date pd = Option.some df) :
    df.rows.map Prod.fst = CSV_ROW_NAMES := by
  obtain ⟨-, hdf⟩ := (gaf_eq_some_iff years date pd df).mp h
  subst hdf
  show ((((CSV_ROW_NAMES.map (reindexFn _)).map (selectFn _)).map
    (metaFn _)).map Prod.fst) = CSV_ROW_NAMES
  rw [map_fst_map_pres (metaFn _) (fun r => rfl),
    map_fst_map_pres (selectFn _) (fun r => rfl)]
  exact map_fst_eq_self (reindexFn _) (fun n => rfl) CSV_ROW_NAMES

/-- The column keys of a successful run: the three metadata columns, then
the years, then the actual column. -/
theorem gaf_cols (years : List Int) (date : String) (pd : ProviderData) (df : DF)
    (h : get_annual_fundamentals years date pd = Option.some df) :
    df.cols = Col.tickerCol :: Col.asOf :: Col.codeYear :: valueCols years := by
  obtain ⟨-, hdf⟩ := (gaf_eq_some_iff years date pd df).mp h
  subst hdf
  rfl

/-- The per-year beta cell of a successful run is the beta block value. -/
theorem gaf_cell_beta (years : List Int) (date : String) (pd : ProviderData) (df : DF)
    (h : get_annual_fundamentals years date pd = Option.some df) (y : Int)
    (hy : y ∈ years) :
    df.cell "beta" (Col.year y) = betaCell pd.price_hist pd.market_hist y := by
  rw [gaf_cell years date pd df h "beta" (Col.year y) (by decide)
    (Or.inr ⟨y, rfl, hy⟩)]
  rw [show (assemblyUpdates years pd).reverse.find? (fun u => u.1 == "beta") =
    Option.some ("beta",
      yearsActualRow (yearsDict years (betaCell pd.price_hist pd.market_hist))
        (Value.ofQ? pd.info.beta)) from rfl]
  exact dictGet_yearsDict years (betaCell pd.price_hist pd.market_hist) y hy

/-- The per-year 52WeekRange cell of a successful run is the range block
value. -/
theorem gaf_cell_range (years : List Int) (date : String) (pd : ProviderData) (df : DF)
    (h : get_annual_fundamentals years date pd = Option.some df) (y : Int)
    (hy : y ∈ years) :
    df.cell "52WeekRange" (Col.year y) =
      (match pd.price_hist with
       | Option.some ph => rangeCell ph y
       | Option.none => Value.none) := by
  rw [gaf_cell years date pd df h "52WeekRange" (Col.year y) (by decide)
    (Or.inr ⟨y, rfl, hy⟩)]
  rw [show (assemblyUpdates years pd).reverse.find? (fun u => u.1 == "52WeekRange") =
    Option.some ("52WeekRange",
      yearsActualRow
        (yearsDict years (fun y2 =>
          match pd.price_hist with
          | Option.some ph => rangeCell ph y2
          | Option.none => Value.none))
        (rangeActualCell pd.info)) from rfl]
  exact dictGet_yearsDict years _ y hy

/-- The per-year dividends-and-splits cell of a successful run. -/
theorem gaf_cell_divsplit_year (years : List Int) (date : String) (pd : ProviderData)
    (df : DF) (h : get_annual_fundamentals years date pd = Option.some df) (y : Int)
    (hy : y ∈ years) :
    df.cell "dividend_and_split" (Col.year y) =
      (match pd.price_hist with
       | Option.some ph => divsplitCell ph y
       | Option.none => Value.none) := by
  rw [gaf_cell years date pd df h "dividend_and_split" (Col.year y) (by decide)
    (Or.inr ⟨y, rfl, hy⟩)]
  rfl

/-- The actual dividends-and-splits cell of a successful run: the snapshot
dict keyed lastDividend / lastSplit. -/
theorem gaf_cell_divsplit_actual (years : List Int) (date : String) (pd : ProviderData)
    (df : DF) (h : get_annual_fundamentals years date pd = Option.some df) :
    df.cell "dividend_and_split" Col.actual =
      Value.dict
        [("lastDividend", Value.ofQ?
            (orQ pd.info.lastDividendValue
              (orQ pd.info.dividendRate pd.info.forwardDividendRate))),
         ("lastSplit", Value.ofS? (orS pd.info.lastSplitFactor pd.info.lastSplitDate))] := by
  rw [gaf_cell years date pd df h "dividend_and_split" Col.actual (by decide)
    (Or.inl rfl)]
  rfl

theorem innerJoin_ne_nil_left (rs rm : List ((Int × Int) × ℚ))
    (h : innerJoin rs rm ≠ []) : rs ≠ [] := by
  intro hr
  exact h (by simp [innerJoin, hr])

theorem innerJoin_nil_right (rs : List ((Int × Int) × ℚ)) :
    innerJoin rs [] = [] := by
  unfold innerJoin
  rw [List.filterMap_eq_nil_iff]
  intro p hp
  rw [List.find?_nil]
  rfl

theorem pctChange_nil : pctChange [] = [] := rfl

/-! ## Evaluation lemmas for the numeric formatters (rational arithmetic is
settled by norm_num, strings and lists by reduction) -/

theorem decDigits_zero (fuel : Nat) : decDigits fuel 0 = "" := by
  cases fuel
  · rfl
  · simp [decDigits]

theorem decDigits_step (fuel : Nat) (r r2 : ℚ) (d : ℤ) (hfuel : fuel ≠ 0)
    (hr : ¬ r = 0) (hd : Int.floor (r * 10) = d)
    (hr2 : r * 10 - (d.toNat : ℚ) = r2) :
    decDigits fuel r =
      String.singleton (Char.ofNat (48 + d.toNat)) ++ decDigits (fuel - 1) r2 := by
  cases fuel with
  | zero => exact absurd rfl hfuel
  | succ n =>
    simp only [decDigits, Nat.succ_sub_one]
    rw [if_neg hr, hd, hr2]

theorem pyFloatStr_q317 : pyFloatStr ((317 : ℚ) / 100) = "3.17" := by
  unfold pyFloatStr
  rw [if_neg (by norm_num), show |(317 : ℚ) / 100| = 317 / 100 from by norm_num,
    show Int.floor ((317 : ℚ) / 100) = 3 from by norm_num,
    show (317 : ℚ) / 100 - ((3 : ℤ) : ℚ) = 17 / 100 from by norm_num,
    decDigits_step 17 (17 / 100) (7 / 10) 1 (by decide) (by norm_num) (by norm_num)
      (by norm_num [show Int.toNat 7 = 7 from rfl, show Int.toNat 1 = 1 from rfl]),
    show (17 : ℕ) - 1 = 16 from rfl,
    decDigits_step 16 (7 / 10) 0 7 (by decide) (by norm_num) (by norm_num)
      (by norm_num [show Int.toNat 7 = 7 from rfl, show Int.toNat 1 = 1 from rfl]),
    show (16 : ℕ) - 1 = 15 from rfl, decDigits_zero]
  rw [if_neg (by decide)]
  rfl

theorem pyFloatStr_four : pyFloatStr (4 : ℚ) = "4.0" := by
  unfold pyFloatStr
  rw [if_neg (by norm_num), show |(4 : ℚ)| = 4 from by norm_num,
    show Int.floor ((4 : ℚ)) = 4 from by norm_num,
    show (4 : ℚ) - ((4 : ℤ) : ℚ) = 0 from by norm_num, decDigits_zero,
    if_pos rfl]
  rfl

theorem pyFloatStr_two : pyFloatStr (2 : ℚ) = "2.0" := by
  unfold pyFloatStr
  rw [if_neg (by norm_num), show |(2 : ℚ)| = 2 from by norm_num,
    show Int.floor ((2 : ℚ)) = 2 from by norm_num,
    show (2 : ℚ) - ((2 : ℤ) : ℚ) = 0 from by norm_num, decDigits_zero,
    if_pos rfl]
  rfl

theorem roundHalfEven_317_10 : roundHalfEvenInt ((317 : ℚ) / 10) = 32 := by
  unfold roundHalfEvenInt
  rw [show Int.floor ((317 : ℚ) / 10) = 31 from by norm_num]
  rw [if_neg (by norm_num), if_pos (by norm_num)]
  decide

theorem fmt1_q317 : fmtFixed 1 ((317 : ℚ) / 100) = "3.2" := by
  unfold fmtFixed
  rw [if_neg (by norm_num), show |(317 : ℚ) / 100| = 317 / 100 from by norm_num,
    show ((317 : ℚ) / 100) * (((10 ^ 1 : ℕ) : ℚ)) = 317 / 10 from by norm_num,
    roundHalfEven_317_10]
  rfl

theorem fmt1_four : fmtFixed 1 (4 : ℚ) = "4.0" := by
  unfold fmtFixed
  rw [if_neg (by norm_num), show |(4 : ℚ)| = 4 from by norm_num,
    show ((4 : ℚ)) * (((10 ^ 1 : ℕ) : ℚ)) = 40 from by norm_num,
    show roundHalfEvenInt (40 : ℚ) = 40 from by
      unfold roundHalfEvenInt
      rw [show Int.floor ((40 : ℚ)) = 40 from by norm_num]
      rw [if_pos (by norm_num)]]
  rfl

theorem parseFloat_q317 : parseFloat "3.17" = Option.some ((317 : ℚ) / 100) := by
  rw [show parseFloat "3.17" =
    Option.some ((1 : ℚ) * (((3 : ℕ) : ℚ) + ((17 : ℕ) : ℚ) / (((100 : ℕ)) : ℚ)))
    from rfl]
  norm_num

theorem parseFloat_four : parseFloat "4.0" = Option.some (4 : ℚ) := by
  rw [show parseFloat "4.0" =
    Option.some ((1 : ℚ) * (((4 : ℕ) : ℚ) + ((0 : ℕ) : ℚ) / (((10 : ℕ)) : ℚ)))
    from rfl]
  norm_num

/-! ## Claims -/

/-- C1: the spec says a fetch failure (get_annual_fundamentals returning no
table) skips only that ticker, is logged, and the batch continues with the
next ticker.  The code instead unpacks the single fetch result into three
names, so run_pipeline raises on every path (TypeError on None, ValueError
or AttributeError on a frame); the exception is caught by the except
wrapping the whole batch loop in main, so after the first ticker of
["AAPL", "MSFT"] fails to fetch, MSFT is never processed and the batch
aborts.  No CSV is ever written by run_pipeline. -/
theorem claim_c1_batch_abort_bug :
    run_pipeline Option.none =
      { csvWritten := false, exc := Option.some PyExc.typeError } ∧
    mainBatch (fun _ => Option.none) ["AAPL", "MSFT"] = (["AAPL"], true) ∧
    "MSFT" ∉ (mainBatch (fun _ => Option.none) ["AAPL", "MSFT"]).1 ∧
    (∀ df : DF, (run_pipeline (Option.some df)).csvWritten = false ∧
       (run_pipeline (Option.some df)).exc ≠ Option.none) := by
  refine ⟨rfl, rfl, by decide, ?_⟩
  intro df
  constructor
  · unfold run_pipeline
    split
    · rfl
    · split <;> rfl
  · unfold run_pipeline
    split
    · simp
    · split <;> simp

/-- C2: each derived-ratio extractor body (ROE, profit margin, payout
ratio) yields null whenever a required resolved input is null or the
denominator is exactly zero; the extractors are total functions and a
non-null result certifies a nonzero denominator, so no division by zero is
ever performed. -/
theorem claim_c2_ratio_null_guards :
    (∀ ni te : Option ℚ,
       (ni = Option.none ∨ te = Option.none ∨ te = Option.some 0) →
       roeVal ni te = Value.none) ∧
    (∀ ni tr : Option ℚ,
       (ni = Option.none ∨ tr = Option.none ∨ tr = Option.some 0) →
       profitVal ni tr = Value.none) ∧
    (∀ eps dv : Option ℚ,
       (eps = Option.none ∨ eps = Option.some 0 ∨ dv = Option.none) →
       payoutVal eps dv = Value.none) ∧
    (∀ ni te : Option ℚ, roeVal ni te = Value.none ∨
       ∃ n t, ni = Option.some n ∧ te = Option.some t ∧ t ≠ 0 ∧
         roeVal ni te = Value.num (n / t)) ∧
    (∀ ni tr : Option ℚ, profitVal ni tr = Value.none ∨
       ∃ n t, ni = Option.some n ∧ tr = Option.some t ∧ t ≠ 0 ∧
         profitVal ni tr = Value.num (n / t)) ∧
    (∀ eps dv : Option ℚ, payoutVal eps dv = Value.none ∨
       ∃ e d, eps = Option.some e ∧ dv = Option.some d ∧ e ≠ 0 ∧
         payoutVal eps dv = Value.num (d / e)) := by
  refine ⟨?_, ?_, ?_, ?_, ?_, ?_⟩
  · rintro ni te (rfl | rfl | rfl)
    · rfl
    · cases ni <;> rfl
    · cases ni <;> simp [roeVal]
  · rintro ni tr (rfl | rfl | rfl)
    · rfl
    · cases ni <;> rfl
    · cases ni <;> simp [profitVal]
  · rintro eps dv (rfl | rfl | rfl)
    · rfl
    · cases dv <;> simp [payoutVal]
    · cases eps <;> rfl
  · intro ni te
    match ni, te with
    | Option.none, _ => exact Or.inl rfl
    | Option.some n, Option.none => exact Or.inl rfl
    | Option.some n, Option.some t =>
      by_cases ht : t = 0
      · exact Or.inl (by simp [roeVal, ht])
      · exact Or.inr ⟨n, t, rfl, rfl, ht, by simp [roeVal, ht]⟩
  · intro ni tr
    match ni, tr with
    | Option.none, _ => exact Or.inl rfl
    | Option.some n, Option.none => exact Or.inl rfl
    | Option.some n, Option.some t =>
      by_cases ht : t = 0
      · exact Or.inl (by simp [profitVal, ht])
      · exact Or.inr ⟨n, t, rfl, rfl, ht, by simp [profitVal, ht]⟩
  · intro eps dv
    match eps, dv with
    | Option.none, _ => exact Or.inl rfl
    | Option.some e, Option.none => exact Or.inl rfl
    | Option.some e, Option.some d =>
      by_cases he : e = 0
      · exact Or.inl (by simp [payoutVal, he])
      · exact Or.inr ⟨e, d, rfl, rfl, he, by simp [payoutVal, he]⟩

/-- Witness for C2 at concrete inputs. -/
theorem claim_c2_witness :
    roeVal (Option.some 5) Option.none = Value.none ∧
    profitVal Option.none (Option.some 3) = Value.none ∧
    payoutVal (Option.some 0) (Option.some 2) = Value.none ∧
    roeVal (Option.some 100) (Option.some 500) = Value.num (100 / 500) :=
  ⟨claim_c2_ratio_null_guards.1 (Option.some 5) Option.none (Or.inr (Or.inl rfl)),
   claim_c2_ratio_null_guards.2.1 Option.none (Option.some 3) (Or.inl rfl),
   claim_c2_ratio_null_guards.2.2.1 (Option.some 0) (Option.some 2)
     (Or.inr (Or.inl rfl)),
   by
    rcases claim_c2_ratio_null_guards.2.2.2.1 (Option.some 100) (Option.some 500) with
      h | ⟨n, t, hn, ht, hne, hv⟩
    · exact absurd h (by simp [roeVal])
    · cases hn
      cases ht
      exact hv⟩

/-- C4: whenever assembly succeeds, the frame has exactly the
CSV_ROW_NAMES rows in order, the value columns [years..., actual] in
order, three leading metadata columns, and every (metric, period) cell
present: no row or column is ever omitted. -/
theorem claim_c4_shape (years : List Int) (date : String) (pd : ProviderData)
    (df : DF) (h : get_annual_fundamentals years date pd = Option.some df) :
    df.rows.map Prod.fst = CSV_ROW_NAMES ∧
    df.rows.length = CSV_ROW_NAMES.length ∧
    df.cols = Col.tickerCol :: Col.asOf :: Col.codeYear :: valueCols years ∧
    df.cols.length = 3 + (years.length + 1) ∧
    (∀ m ∈ CSV_ROW_NAMES, ∃ f, (m, f) ∈ df.rows) := by
  have hrows := gaf_rows_fst years date pd df h
  have hcols := gaf_cols years date pd df h
  refine ⟨hrows, ?_, hcols, ?_, ?_⟩
  · rw [← hrows, List.length_map]
  · rw [hcols]
    simp [valueCols]
    omega
  · intro m hm
    rw [← hrows] at hm
    obtain ⟨r, hr, hfst⟩ := List.mem_map.mp hm
    exact ⟨r.2, by rwa [show (m, r.2) = r from by rw [← hfst]]⟩

/-- Witness for C4 at the sample provider data. -/
theorem claim_c4_witness :
    ∃ df, get_annual_fundamentals yearsW "2026-10-12" pdW = Option.some df ∧
      df.rows.map Prod.fst = CSV_ROW_NAMES ∧
      df.cols = Col.tickerCol :: Col.asOf :: Col.codeYear :: valueCols yearsW := by
  refine ⟨_, rfl, ?_, ?_⟩
  · exact (claim_c4_shape yearsW "2026-10-12" pdW _ rfl).1
  · exact (claim_c4_shape yearsW "2026-10-12" pdW _ rfl).2.2.1

/-- C6: the assembler returns no table exactly when both the income
statement and the price history are empty or unavailable, and in that case
run_pipeline writes no CSV for the ticker. -/
theorem claim_c6_fetch_failure :
    (∀ (years : List Int) (date : String) (pd : ProviderData),
       get_annual_fundamentals years date pd = Option.none ↔
         incomeUnavailable pd = true ∧ priceUnavailable pd = true) ∧
    (∀ (years : List Int) (date : String) (pd : ProviderData),
       get_annual_fundamentals years date pd = Option.none →
       (run_pipeline (get_annual_fundamentals years date pd)).csvWritten = false) := by
  constructor
  · intro years date pd
    unfold get_annual_fundamentals
    by_cases h : (incomeUnavailable pd && priceUnavailable pd) = true
    · have h12 : incomeUnavailable pd = true ∧ priceUnavailable pd = true := by
        simpa using h
      simp [h, h12]
    · constructor
      · intro hfalse
        rw [if_neg h] at hfalse
        exact absurd hfalse (by simp)
      · intro ⟨h1, h2⟩
        exact absurd (by rw [h1, h2]; rfl) h
  · intro years date pd h
    rw [h]
    rfl

/-- Witness for C6: no provider data at all is a fetch failure; the sample
provider data is not. -/
theorem claim_c6_witness :
    get_annual_fundamentals yearsW "2026-10-12" ({} : ProviderData) = Option.none ∧
    (run_pipeline (get_annual_fundamentals yearsW "2026-10-12"
      ({} : ProviderData))).csvWritten = false ∧
    ¬(get_annual_fundamentals yearsW "2026-10-12" pdW = Option.none) := by
  have h0 : get_annual_fundamentals yearsW "2026-10-12" ({} : ProviderData) =
      Option.none :=
    (claim_c6_fetch_failure.1 yearsW "2026-10-12" {}).mpr ⟨rfl, rfl⟩
  refine ⟨h0, claim_c6_fetch_failure.2 yearsW "2026-10-12" {} h0, ?_⟩
  intro hbad
  have := (claim_c6_fetch_failure.1 yearsW "2026-10-12" pdW).mp hbad
  exact absurd this.1 (by decide)

/-- The beta block on two present histories, with the option match
reduced. -/
theorem betaCell_some (ph mh : List PriceRow) (y : Int) :
    betaCell (Option.some ph) (Option.some mh) y =
      if (!(ph.filter (fun r => r.year == y)).isEmpty) = true ∧
         (!(mh.filter (fun r => r.year == y)).isEmpty) = true then
        if (!(combinedReturns ph mh y).isEmpty) = true ∧
           sampleVar ((combinedReturns ph mh y).map Prod.snd) ≠ Option.some 0 then
          match sampleCov (combinedReturns ph mh y),
                sampleVar ((combinedReturns ph mh y).map Prod.snd) with
          | Option.some c, Option.some v => Value.num (c / v)
          | _, _ => Value.none
        else Value.none
      else Value.none := rfl

/-- C5: the per-year beta cell is the sample covariance of the joined
stock/benchmark daily percentage returns divided by the benchmark sample
variance; it is null when fewer than two overlapping return observations
exist, when the benchmark variance is zero, or when either history is
unavailable; and the beta row of a successful run holds exactly these
cells. -/
theorem claim_c5_beta :
    (∀ (ph mh : List PriceRow) (y : Int),
       (combinedReturns ph mh y).length < 2 →
       betaCell (Option.some ph) (Option.some mh) y = Value.none) ∧
    (∀ (ph mh : List PriceRow) (y : Int),
       sampleVar ((combinedReturns ph mh y).map Prod.snd) = Option.some 0 →
       betaCell (Option.some ph) (Option.some mh) y = Value.none) ∧
    (∀ (ph mh : List PriceRow) (y : Int) (cv vr : ℚ),
       sampleCov (combinedReturns ph mh y) = Option.some cv →
       sampleVar ((combinedReturns ph mh y).map Prod.snd) = Option.some vr →
       vr ≠ 0 →
       betaCell (Option.some ph) (Option.some mh) y = Value.num (cv / vr)) ∧
    (∀ (mh? : Option (List PriceRow)) (y : Int),
       betaCell Option.none mh? y = Value.none) ∧
    (∀ (ph? : Option (List PriceRow)) (y : Int),
       betaCell ph? Option.none y = Value.none) ∧
    (∀ (years : List Int) (date : String) (pd : ProviderData) (df : DF) (y : Int),
       get_annual_fundamentals years date pd = Option.some df → y ∈ years →
       df.cell "beta" (Col.year y) = betaCell pd.price_hist pd.market_hist y) := by
  refine ⟨?_, ?_, ?_, ?_, ?_, ?_⟩
  · intro ph mh y hlen
    rw [betaCell_some]
    by_cases hmask : ((!(ph.filter (fun r => r.year == y)).isEmpty) = true ∧
        (!(mh.filter (fun r => r.year == y)).isEmpty) = true)
    · rw [if_pos hmask]
      by_cases hcomb : combinedReturns ph mh y = []
      · rw [if_neg]
        simp [hcomb]
      · have h1 : (combinedReturns ph mh y).length = 1 := by
          have := List.length_pos.mpr hcomb
          omega
        have hvar : sampleVar ((combinedReturns ph mh y).map Prod.snd) =
            Option.none := by
          unfold sampleVar
          rw [if_pos]
          simp [h1]
        have hcov : sampleCov (combinedReturns ph mh y) = Option.none := by
          unfold sampleCov
          rw [if_pos]
          omega
        rw [if_pos ⟨by simp [List.isEmpty_iff, hcomb], by simp [hvar]⟩]
        rw [hcov]
    · rw [if_neg hmask]
  · intro ph mh y hvar
    rw [betaCell_some]
    by_cases hmask : ((!(ph.filter (fun r => r.year == y)).isEmpty) = true ∧
        (!(mh.filter (fun r => r.year == y)).isEmpty) = true)
    · rw [if_pos hmask, if_neg]
      rintro ⟨-, hv⟩
      exact hv hvar
    · rw [if_neg hmask]
  · intro ph mh y cv vr hcov hvar hvr
    have hlen : 2 ≤ (combinedReturns ph mh y).length := by
      by_contra hlt
      push_neg at hlt
      have hl2 : ((combinedReturns ph mh y).map Prod.snd).length < 2 := by
        rw [List.length_map]
        omega
      unfold sampleVar at hvar
      rw [if_pos hl2] at hvar
      exact Option.noConfusion hvar
    have hcombne : combinedReturns ph mh y ≠ [] := by
      intro hc
      rw [hc] at hlen
      simp at hlen
    have hrs : yearReturns ph y ≠ [] :=
      innerJoin_ne_nil_left (yearReturns ph y) (yearReturns mh y) hcombne
    have hrm : yearReturns mh y ≠ [] := by
      intro hm
      exact hcombne (by
        show innerJoin (yearReturns ph y) (yearReturns mh y) = []
        rw [hm]
        exact innerJoin_nil_right (yearReturns ph y))
    have hphne : (ph.filter (fun r => r.year == y)) ≠ [] := by
      intro hnil
      exact hrs (by unfold yearReturns; rw [hnil]; rfl)
    have hmhne : (mh.filter (fun r => r.year == y)) ≠ [] := by
      intro hnil
      exact hrm (by unfold yearReturns; rw [hnil]; rfl)
    rw [betaCell_some]
    rw [if_pos ⟨by simp [List.isEmpty_iff, hphne], by simp [List.isEmpty_iff, hmhne]⟩,
      if_pos ⟨by simp [List.isEmpty_iff, hcombne], by simp [hvar, hvr]⟩,
      hcov, hvar]
  · intro mh? y
    rfl
  · intro ph? y
    cases ph? <;> rfl
  · intro years date pd df y h hy
    exact gaf_cell_beta years date pd df h y hy

/-- Witness for C5 at the sample histories: 2021 has two overlapping
returns with nonzero benchmark variance, 2022 has fewer than two. -/
theorem claim_c5_witness :
    betaCell (Option.some phW) (Option.some mhW) 2021 =
      Value.num ((-1 / 2200 : ℚ) / (1 / 200 : ℚ)) ∧
    betaCell (Option.some phW) (Option.some mhW) 2022 = Value.none ∧
    ∃ df, get_annual_fundamentals yearsW "2026-10-12" pdW = Option.some df ∧
      df.cell "beta" (Col.year 2021) =
        betaCell pdW.price_hist pdW.market_hist 2021 := by
  have hcomb : combinedReturns phW mhW 2021 =
      [((11 : ℚ) / 10 - 1, (110 : ℚ) / 100 - 1),
       ((12 : ℚ) / 11 - 1, (132 : ℚ) / 110 - 1)] := rfl
  refine ⟨?_, ?_, ?_⟩
  · have hcov : sampleCov (combinedReturns phW mhW 2021) =
        Option.some (-1 / 2200) := by
      rw [hcomb]
      unfold sampleCov
      rw [if_neg (by decide)]
      norm_num [Option.some.injEq, listMean, List.map_cons, List.map_nil,
        List.sum_cons, List.sum_nil, List.length_cons, List.length_nil]
    have hvar : sampleVar ((combinedReturns phW mhW 2021).map Prod.snd) =
        Option.some (1 / 200) := by
      rw [hcomb]
      unfold sampleVar
      rw [if_neg (by decide)]
      norm_num [Option.some.injEq, listMean, List.map_cons, List.map_nil,
        List.sum_cons, List.sum_nil, List.length_cons, List.length_nil]
    exact claim_c5_beta.2.2.1 phW mhW 2021 (-1 / 2200) (1 / 200)
      hcov hvar (by norm_num)
  · exact claim_c5_beta.1 phW mhW 2022 (by decide)
  · exact ⟨_, rfl,
      claim_c5_beta.2.2.2.2.2 yearsW "2026-10-12" pdW _ 2021 rfl (by decide)⟩

/-- C7 counterexample: the claim says the assembled per-year range cell is
already formatted to one-decimal endpoints; with a daily low of 3.17 the
cell is the default-precision string "3.17-4.0", not "3.2-4.0". -/
theorem claim_c7_counterexample :
    rangeCell phRange 2021 ≠
      Value.str (fmtFixed 1 ((317 : ℚ) / 100) ++ "-" ++ fmtFixed 1 (4 : ℚ)) := by
  intro h
  rw [show rangeCell phRange 2021 =
      Value.str (pyFloatStr ((317 : ℚ) / 100) ++ "-" ++ pyFloatStr (4 : ℚ)) from rfl,
    pyFloatStr_q317, pyFloatStr_four, fmt1_q317, fmt1_four] at h
  simp only [Value.str.injEq] at h
  exact absurd h (by decide)

/-- C7 amended: the per-year range cell is the default-precision string
"{min_low}-{max_high}" built from the yearly minimum of daily lows and
maximum of daily highs, null for a year with no trading days; the
52WeekRange row of a successful run holds exactly these cells; and the
human-readable writer re-formats such a cell to one-decimal endpoints. -/
theorem claim_c7_range_amended :
    (∀ (ph : List PriceRow) (y : Int),
       (ph.filter (fun r => r.year == y)).isEmpty = true →
       rangeCell ph y = Value.none) ∧
    (∀ (ph : List PriceRow) (y : Int) (mn mx : ℚ),
       listMinQ ((ph.filter (fun r => r.year == y)).map PriceRow.low) =
         Option.some mn →
       listMaxQ ((ph.filter (fun r => r.year == y)).map PriceRow.high) =
         Option.some mx →
       rangeCell ph y = Value.str (pyFloatStr mn ++ "-" ++ pyFloatStr mx)) ∧
    (∀ (years : List Int) (date : String) (pd : ProviderData) (df : DF) (y : Int),
       get_annual_fundamentals years date pd = Option.some df → y ∈ years →
       df.cell "52WeekRange" (Col.year y) =
         (match pd.price_hist with
          | Option.some ph => rangeCell ph y
          | Option.none => Value.none)) ∧
    (∀ a b : ℚ,
       parseFloat (pyFloatStr a) = Option.some a →
       parseFloat (pyFloatStr b) = Option.some b →
       pySplitOn (pyFloatStr a ++ "-" ++ pyFloatStr b) '-' =
         [pyFloatStr a, pyFloatStr b] →
       strContains (pyFloatStr a ++ "-" ++ pyFloatStr b) "-" = true →
       format_52week_range (Value.str (pyFloatStr a ++ "-" ++ pyFloatStr b)) =
         fmtFixed 1 a ++ "-" ++ fmtFixed 1 b) := by
  refine ⟨?_, ?_, ?_, ?_⟩
  · intro ph y hemp
    unfold rangeCell
    rw [if_pos hemp]
  · intro ph y mn mx hmn hmx
    have hne : ¬(ph.filter (fun r => r.year == y)).isEmpty = true := by
      intro hemp
      rw [List.isEmpty_iff] at hemp
      rw [hemp] at hmn
      exact Option.noConfusion hmn
    unfold rangeCell
    rw [if_neg hne, hmn, hmx]
  · intro years date pd df y h hy
    exact gaf_cell_range years date pd df h y hy
  · intro a b hpa hpb hsplit hdash
    unfold format_52week_range
    show (if strContains (pyStrV (Value.str (pyFloatStr a ++ "-" ++ pyFloatStr b)))
        "-" = true then _ else _) = _
    rw [show pyStrV (Value.str (pyFloatStr a ++ "-" ++ pyFloatStr b)) =
      pyFloatStr a ++ "-" ++ pyFloatStr b from rfl]
    rw [if_pos hdash, hsplit]
    simp only [hpa, hpb]

/-- Witness for C7 at the sample one-bar history. -/
theorem claim_c7_witness :
    rangeCell phRange 2021 =
      Value.str (pyFloatStr ((317 : ℚ) / 100) ++ "-" ++ pyFloatStr (4 : ℚ)) ∧
    format_52week_range
        (Value.str (pyFloatStr ((317 : ℚ) / 100) ++ "-" ++ pyFloatStr (4 : ℚ))) =
      fmtFixed 1 ((317 : ℚ) / 100) ++ "-" ++ fmtFixed 1 (4 : ℚ) ∧
    rangeCell phRange 2022 = Value.none := by
  refine ⟨?_, ?_, ?_⟩
  · exact claim_c7_range_amended.2.1 phRange 2021 ((317 : ℚ) / 100) 4 rfl rfl
  · have hpa : parseFloat (pyFloatStr ((317 : ℚ) / 100)) =
        Option.some ((317 : ℚ) / 100) := by
      rw [pyFloatStr_q317]
      exact parseFloat_q317
    have hpb : parseFloat (pyFloatStr (4 : ℚ)) = Option.some (4 : ℚ) := by
      rw [pyFloatStr_four]
      exact parseFloat_four
    have hsplit : pySplitOn (pyFloatStr ((317 : ℚ) / 100) ++ "-" ++
        pyFloatStr (4 : ℚ)) (Char.ofNat 45) =
        [pyFloatStr ((317 : ℚ) / 100), pyFloatStr (4 : ℚ)] := by
      rw [pyFloatStr_q317, pyFloatStr_four]
      rfl
    have hdash : strContains (pyFloatStr ((317 : ℚ) / 100) ++ "-" ++
        pyFloatStr (4 : ℚ)) "-" = true := by
      rw [pyFloatStr_q317, pyFloatStr_four]
      rfl
    exact claim_c7_range_amended.2.2.2 ((317 : ℚ) / 100) 4 hpa hpb
      (by rw [pyFloatStr_q317, pyFloatStr_four]; rfl) hdash
  · exact claim_c7_range_amended.1 phRange 2022 (by decide)

/-- C8: for a year with trading days the dividends-and-splits cell is the
record whose dividends field is the year's dividend sum (null when the sum
is zero) and whose splits field is the ordered list of the year's non-zero
split events printed as strings (null when there are none); for a year
with no trading days the whole cell is null; and the dividend_and_split
row of a successful run holds exactly these cells. -/
theorem claim_c8_divsplit :
    (∀ (ph : List PriceRow) (y : Int),
       (ph.filter (fun r => r.year == y)).isEmpty = true →
       divsplitCell ph y = Value.none) ∧
    (∀ (ph : List PriceRow) (y : Int),
       (ph.filter (fun r => r.year == y)).isEmpty = false →
       ∃ dv sp, divsplitCell ph y = Value.dict [("dividends", dv), ("splits", sp)] ∧
         (((ph.filter (fun r => r.year == y)).map PriceRow.dividends).sum = 0 →
            dv = Value.none) ∧
         (((ph.filter (fun r => r.year == y)).map PriceRow.dividends).sum ≠ 0 →
            dv = Value.num
              (((ph.filter (fun r => r.year == y)).map PriceRow.dividends).sum)) ∧
         ((((ph.filter (fun r => r.year == y)).filter
              (fun r => !(r.stockSplits == 0))).map
              (fun r => pyFloatStr r.stockSplits)) = [] → sp = Value.none) ∧
         ((((ph.filter (fun r => r.year == y)).filter
              (fun r => !(r.stockSplits == 0))).map
              (fun r => pyFloatStr r.stockSplits)) ≠ [] →
            sp = Value.strList
              (((ph.filter (fun r => r.year == y)).filter
                 (fun r => !(r.stockSplits == 0))).map
                 (fun r => pyFloatStr r.stockSplits)))) ∧
    (∀ (years : List Int) (date : String) (pd : ProviderData) (df : DF) (y : Int),
       get_annual_fundamentals years date pd = Option.some df → y ∈ years →
       df.cell "dividend_and_split" (Col.year y) =
         (match pd.price_hist with
          | Option.some ph => divsplitCell ph y
          | Option.none => Value.none)) := by
  refine ⟨?_, ?_, ?_⟩
  · intro ph y hemp
    unfold divsplitCell
    rw [if_pos hemp]
  · intro ph y hne
    unfold divsplitCell
    rw [if_neg (by simp [hne])]
    refine ⟨_, _, rfl, ?_, ?_, ?_, ?_⟩
    · intro h0
      rw [if_pos (by simp [h0])]
    · intro h0
      rw [if_neg (by simp [h0])]
    · intro hev
      rw [if_pos (by rw [hev]; rfl)]
    · intro hev
      rw [if_neg (fun hemp => hev (List.isEmpty_iff.mp hemp))]
  · intro years date pd df y h hy
    exact gaf_cell_divsplit_year years date pd df h y hy

/-- Witness for C8 at the sample price history: 2021 has one dollar of
dividends and one 2-for-1 split, 2023 has no trading days. -/
theorem claim_c8_witness :
    divsplitCell phW 2023 = Value.none ∧
    ∃ dv sp, divsplitCell phW 2021 = Value.dict [("dividends", dv), ("splits", sp)] ∧
      dv = Value.num 1 ∧ sp = Value.strList ["2.0"] := by
  constructor
  · exact claim_c8_divsplit.1 phW 2023 (by decide)
  · obtain ⟨dv, sp, heq, hz, hnz, hse, hsne⟩ :=
      claim_c8_divsplit.2.1 phW 2021 (by decide)
    have hsum : ((phW.filter (fun r => r.year == 2021)).map PriceRow.dividends).sum =
        1 := by
      rw [show (phW.filter (fun r => r.year == 2021)).map PriceRow.dividends =
        [(1 : ℚ) / 2, 0, 1 / 2] from rfl]
      norm_num [List.sum_cons, List.sum_nil]
    have hev : (((phW.filter (fun r => r.year == 2021)).filter
        (fun r => !(r.stockSplits == 0))).map (fun r => pyFloatStr r.stockSplits)) =
        ["2.0"] := by
      rw [show (((phW.filter (fun r => r.year == 2021)).filter
        (fun r => !(r.stockSplits == 0))).map (fun r => pyFloatStr r.stockSplits)) =
        [pyFloatStr 2] from rfl, pyFloatStr_two]
    refine ⟨dv, sp, heq, ?_, ?_⟩
    · rw [hnz (by rw [hsum]; norm_num), hsum]
    · rw [hsne (by rw [hev]; simp), hev]

/-! ## The resolver as a match, and the assignment-name list (shared
reduction lemmas) -/

/-- get_value_candidates_normalized on a present table, as a match over
the label finder. -/
theorem gvcn_some (df : Statement) (cands : List String) (d : DKey) :
    get_value_candidates_normalized (Option.some df) cands d =
      match findLabelByCandidates (Option.some df) cands with
      | Option.none => Option.none
      | Option.some l => safe_get_value df l d := by
  unfold get_value_candidates_normalized
  cases findLabelByCandidates (Option.some df) cands <;> rfl

/-- The label finder on a present table, unfolded. -/
theorem flbc_some (df : Statement) (cands : List String) :
    findLabelByCandidates (Option.some df) cands =
      (if df.isEmpty then Option.none
       else
         match cands.findSome? (fun c =>
             (df.rows.reverse.find? (fun r => normLabel r.1 == normLabel c)).map
               Prod.fst) with
         | Option.some l => Option.some l
         | Option.none =>
           cands.findSome? (fun c =>
             (df.rows.find? (fun r =>
               strContains (pyLower (pyStrip r.1)) (pyLower (pyStrip c)))).map
               Prod.fst)) := rfl

/-- The target names of the loc assignments, in source order. -/
theorem assembly_names (years : List Int) (pd : ProviderData) :
    (assemblyUpdates years pd).map Prod.fst =
      ["EPS", "totalRevenue", "costOfRevenue", "operatingExpense", "netIncome",
       "ROE", "profitMargin", "dividend_and_split", "payoutRatio", "marketCap",
       "beta", "peRatio", "trailingPE", "forwardPE", "forwardDividendRate",
       "52WeekRange", "cash cash equivalence", "total assets",
       "total liabilities", "working capital", "invested capital",
       "total debts", "ordinary shared number", "net tangible assets"] := rfl

/-- The last cell of a label-led output row built over cols_order is the
cell of the actual column. -/
theorem getLast_label_row (a : Value) (g : Col → Value) (years : List Int) :
    (a :: (valueCols years).map g).getLast? = Option.some (g Col.actual) := by
  rw [show valueCols years = years.map Col.year ++ [Col.actual] from rfl,
    List.map_append,
    show ([Col.actual].map g) = [g Col.actual] from rfl,
    show a :: ((years.map Col.year).map g ++ [g Col.actual]) =
      (a :: (years.map Col.year).map g) ++ [g Col.actual] from rfl,
    List.getLast?_concat]

/-- **C3** (counterexample): the claim says resolving a label that exists
under a casing/spacing/underscore variant returns the same value as the
exact original-label lookup.  In stCollision the labels "Net Income" and
"net_income" both normalize to "netincome"; the normalized map is built
label by label so the later label wins, and resolving the candidate
"Net Income" — itself an existing exact row label — returns the value
stored under "net_income" (2), while the exact lookup returns 1. -/
theorem claim_c3_counterexample :
    "Net Income" ∈ stCollision.rows.map Prod.fst ∧
    get_value_candidates_normalized (Option.some stCollision) ["Net Income"]
      dkey21 = Option.some 2 ∧
    safe_get_value stCollision "Net Income" dkey21 = Option.some 1 ∧
    ¬(get_value_candidates_normalized (Option.some stCollision) ["Net Income"]
        dkey21 =
      safe_get_value stCollision "Net Income" dkey21) := by
  refine ⟨by decide, by decide, by decide, by decide⟩

/-- **C3** (amended): the resolver yields null for an absent or empty
table; the first candidate whose normalized form matches some row label
wins, and among colliding row labels the normalized map keeps the last
one; when no candidate matches normalized, the candidate-major
case-insensitive substring pass decides; when the finder finds nothing
the result is null; and the claimed agreement with the exact
original-label lookup holds whenever no two distinct row labels share a
normalized form. -/
theorem claim_c3_resolver_amended :
    (∀ (cands : List String) (d : DKey),
      get_value_candidates_normalized Option.none cands d = Option.none) ∧
    (∀ (df : Statement) (cands : List String) (d : DKey), df.isEmpty = true →
      get_value_candidates_normalized (Option.some df) cands d = Option.none) ∧
    (∀ (df : Statement) (c : String) (cs : List String) (d : DKey)
        (r : String × (DKey → Option ℚ)), df.isEmpty = false →
      df.rows.reverse.find? (fun w => normLabel w.1 == normLabel c) =
        Option.some r →
      get_value_candidates_normalized (Option.some df) (c :: cs) d =
        safe_get_value df r.1 d) ∧
    (∀ (df : Statement) (cands : List String) (d : DKey) (l : String),
      df.isEmpty = false →
      cands.findSome? (fun c =>
        (df.rows.reverse.find? (fun w => normLabel w.1 == normLabel c)).map
          Prod.fst) = Option.none →
      cands.findSome? (fun c =>
        (df.rows.find? (fun w =>
          strContains (pyLower (pyStrip w.1)) (pyLower (pyStrip c)))).map
          Prod.fst) = Option.some l →
      get_value_candidates_normalized (Option.some df) cands d =
        safe_get_value df l d) ∧
    (∀ (df : Statement) (cands : List String) (d : DKey),
      findLabelByCandidates (Option.some df) cands = Option.none →
      get_value_candidates_normalized (Option.some df) cands d = Option.none) ∧
    (∀ (df : Statement) (v l : String) (d : DKey),
      (df.rows.map Prod.fst).Pairwise
        (fun a b => normLabel a = normLabel b → a = b) →
      l ∈ df.rows.map Prod.fst → normLabel v = normLabel l →
      get_value_candidates_normalized (Option.some df) [v] d =
        safe_get_value df l d) := by
  refine ⟨fun cands d => rfl, ?_, ?_, ?_, ?_, ?_⟩
  · intro df cands d h
    rw [gvcn_some, flbc_some, if_pos h]
  · intro df c cs d r hne hf
    rw [gvcn_some, flbc_some, if_neg (by simp [hne])]
    simp only [List.findSome?_cons, hf]
    rfl
  · intro df cands d l hne h1 h2
    rw [gvcn_some, flbc_some, if_neg (by simp [hne]), h1, h2]
  · intro df cands d h
    rw [gvcn_some, h]
  · intro df v l d hpw hl hnv
    have hrows : df.rows.isEmpty = false := by
      cases hr : df.rows with
      | nil => rw [hr] at hl; simp at hl
      | cons a as => rfl
    by_cases hemp : df.isEmpty = true
    · have hcols : df.cols = [] := by
        have h2 : df.cols.isEmpty = true := by
          unfold Statement.isEmpty at hemp
          rw [hrows] at hemp
          simpa using hemp
        exact List.isEmpty_iff.mp h2
      rw [gvcn_some, flbc_some, if_pos hemp]
      show Option.none = safe_get_value df l d
      unfold safe_get_value
      cases hfind : df.rows.find? (fun w => w.1 == l) with
      | none => rfl
      | some w =>
        show Option.none = if d ∈ df.cols then w.2 d else Option.none
        rw [hcols]
        simp
    · have hemp2 : df.isEmpty = false := by simpa using hemp
      obtain ⟨w, hwmem, hw1⟩ : ∃ w ∈ df.rows, w.1 = l := by
        obtain ⟨w, hw, hw1⟩ := List.mem_map.mp hl
        exact ⟨w, hw, hw1⟩
      cases hfind : df.rows.reverse.find?
          (fun u => normLabel u.1 == normLabel v) with
      | none =>
        exact absurd (show (normLabel w.1 == normLabel v) = true by
            rw [hw1, hnv]; simp)
          (List.find?_eq_none.mp hfind w (List.mem_reverse.mpr hwmem))
      | some r =>
        have hr2 := List.find?_some hfind
        have hrmem : r ∈ df.rows :=
          List.mem_reverse.mp (List.mem_of_find?_eq_some hfind)
        have hr1 : r.1 = l := by
          by_cases heq : r.1 = l
          · exact heq
          · have h1 : r.1 ∈ df.rows.map Prod.fst :=
              List.mem_map_of_mem Prod.fst hrmem
            have hsym : Symmetric (fun a b : String =>
                normLabel a = normLabel b → a = b) := by
              intro a b hab hba
              exact (hab hba.symm).symm
            exact (hpw.forall hsym h1 hl heq) ((eq_of_beq hr2).trans hnv)
        rw [gvcn_some, flbc_some, if_neg (by simp [hemp2])]
        simp only [List.findSome?_cons, hfind]
        show safe_get_value df r.1 d = safe_get_value df l d
        rw [hr1]

/-- Witness for C3 at the sample table: the candidate "Total Revenue"
resolves to the row "totalRevenue" and agrees with the exact lookup. -/
theorem claim_c3_witness :
    get_value_candidates_normalized (Option.some stNorm) ["Total Revenue"]
      dkey21 = safe_get_value stNorm "totalRevenue" dkey21 ∧
    safe_get_value stNorm "totalRevenue" dkey21 = Option.some 77 :=
  ⟨claim_c3_resolver_amended.2.2.2.2.2 stNorm "Total Revenue" "totalRevenue"
    dkey21 (by decide) (by decide) (by decide), by decide⟩

/-- **C9**: the five schema rows the assembler never assigns are entirely
null in every successful table: "total debts" and "forwardDividendRate"
are assigned but dropped by the reindex over CSV_ROW_NAMES, and "EBITDA",
"totalRevenueChange" and "forwardDividendYield" are never assigned at all;
both CSV variants print those rows as the label followed by blanks. -/
theorem claim_c9_null_rows (years : List Int) (date : String) (pd : ProviderData)
    (df : DF) (h : get_annual_fundamentals years date pd = Option.some df) :
    (∀ m ∈ (["net debts", "net debts over EBITDA", "EBITDA",
        "totalRevenueChange", "forwardDividendYield"] : List String),
      ∀ c ∈ valueCols years, df.cell m c = Value.none) ∧
    ("total debts" ∈ (assemblyUpdates years pd).map Prod.fst ∧
      "total debts" ∉ CSV_ROW_NAMES ∧ "total debts" ∉ df.rows.map Prod.fst) ∧
    ("forwardDividendRate" ∈ (assemblyUpdates years pd).map Prod.fst ∧
      "forwardDividendRate" ∉ CSV_ROW_NAMES ∧
      "forwardDividendRate" ∉ df.rows.map Prod.fst) ∧
    (∀ m ∈ (["EBITDA", "totalRevenueChange",
        "forwardDividendYield"] : List String),
      m ∉ (assemblyUpdates years pd).map Prod.fst) ∧
    (∀ b : Bool,
      repRow df (valueCols years) b "forwardDividendYield" =
        Value.str "forwardDividendYield" ::
          (valueCols years).map (fun _ => Value.str "") ∧
      finRow df (valueCols years) b "totalRevenueChange" =
        Value.str "totalRevenueChange" ::
          (valueCols years).map (fun _ => Value.str "") ∧
      finRow df (valueCols years) b "EBITDA" =
        Value.str "EBITDA" :: (valueCols years).map (fun _ => Value.str "") ∧
      finRow df (valueCols years) b "net debts over EBITDA" =
        Value.str "net debts over EBITDA" ::
          (valueCols years).map (fun _ => Value.str "") ∧
      bsRow df (valueCols years) b "net debts" =
        Value.str "net debts" ::
          (valueCols years).map (fun _ => Value.str "")) := by
  have hnull : ∀ m ∈ (["net debts", "net debts over EBITDA", "EBITDA",
      "totalRevenueChange", "forwardDividendYield"] : List String),
      ∀ c ∈ valueCols years, df.cell m c = Value.none := by
    intro m hm c hc
    have hcv := (mem_valueCols years c).mp hc
    simp only [List.mem_cons, List.not_mem_nil, or_false] at hm
    rcases hm with rfl | rfl | rfl | rfl | rfl <;>
      · rw [gaf_cell years date pd df h _ c (by decide) hcv]
        rfl
  refine ⟨hnull, ⟨?_, by decide, ?_⟩, ⟨?_, by decide, ?_⟩, ?_, ?_⟩
  · rw [assembly_names]; decide
  · rw [gaf_rows_fst years date pd df h]; decide
  · rw [assembly_names]; decide
  · rw [gaf_rows_fst years date pd df h]; decide
  · intro m hm
    rw [assembly_names]
    simp only [List.mem_cons, List.not_mem_nil, or_false] at hm
    rcases hm with rfl | rfl | rfl <;> decide
  · intro b
    refine ⟨?_, ?_, ?_, ?_, ?_⟩
    · exact congrArg (List.cons (Value.str "forwardDividendYield"))
        (List.map_congr_left (fun c hc => by
          rw [hnull "forwardDividendYield" (by decide) c hc]
          cases b <;> rfl))
    · exact congrArg (List.cons (Value.str "totalRevenueChange"))
        (List.map_congr_left (fun c hc => by
          rw [hnull "totalRevenueChange" (by decide) c hc]
          cases b <;> rfl))
    · exact congrArg (List.cons (Value.str "EBITDA"))
        (List.map_congr_left (fun c hc => by
          rw [hnull "EBITDA" (by decide) c hc]
          cases b <;> rfl))
    · exact congrArg (List.cons (Value.str "net debts over EBITDA"))
        (List.map_congr_left (fun c hc => by
          rw [hnull "net debts over EBITDA" (by decide) c hc]
          cases b <;> rfl))
    · exact congrArg (List.cons (Value.str "net debts"))
        (List.map_congr_left (fun c hc => by
          rw [hnull "net debts" (by decide) c hc]
          cases b <;> rfl))

/-- Witness for C9 at the sample provider data. -/
theorem claim_c9_witness :
    ∃ df, get_annual_fundamentals yearsW "2026-10-12" pdW = Option.some df ∧
      df.cell "EBITDA" Col.actual = Value.none ∧
      df.cell "net debts" (Col.year 2021) = Value.none ∧
      "total debts" ∉ df.rows.map Prod.fst := by
  refine ⟨_, rfl, ?_, ?_, ?_⟩
  · exact (claim_c9_null_rows yearsW "2026-10-12" pdW _ rfl).1 "EBITDA"
      (by decide) Col.actual (by decide)
  · exact (claim_c9_null_rows yearsW "2026-10-12" pdW _ rfl).1 "net debts"
      (by decide) (Col.year 2021) (by decide)
  · exact (claim_c9_null_rows yearsW "2026-10-12" pdW _ rfl).2.1.2.2

/-- **C10**: the assembler keys the actual dividends/splits snapshot dict
as lastDividend / lastSplit, while the writer reads the keys dividends and
splits out of it; hence in both CSV variants the actual column of the
expanded dividends and splits rows is the empty string for every input. -/
theorem claim_c10_actual_divsplit_empty (years : List Int) (date : String)
    (pd : ProviderData) (df : DF)
    (h : get_annual_fundamentals years date pd = Option.some df) :
    (df.cell "dividend_and_split" Col.actual).dictGetS "dividends" =
      Value.none ∧
    (df.cell "dividend_and_split" Col.actual).dictGetS "splits" = Value.none ∧
    (∀ b : Bool, (dividendsOutRow df (valueCols years) b).getLast? =
      Option.some (Value.str "")) ∧
    (splitsOutRow df (valueCols years)).getLast? =
      Option.some (Value.str "") := by
  have hcell := gaf_cell_divsplit_actual years date pd df h
  have hdiv : (df.cell "dividend_and_split" Col.actual).dictGetS "dividends" =
      Value.none := by rw [hcell]; rfl
  have hspl : (df.cell "dividend_and_split" Col.actual).dictGetS "splits" =
      Value.none := by rw [hcell]; rfl
  refine ⟨hdiv, hspl, ?_, ?_⟩
  · intro b
    unfold dividendsOutRow
    rw [getLast_label_row]
    rw [hcell]
    cases b <;> rfl
  · unfold splitsOutRow
    rw [getLast_label_row]
    rw [hcell]
    rfl

/-- Witness for C10 at the sample provider data. -/
theorem claim_c10_witness :
    ∃ df, get_annual_fundamentals yearsW "2026-10-12" pdW = Option.some df ∧
      (∀ b : Bool, (dividendsOutRow df (valueCols yearsW) b).getLast? =
        Option.some (Value.str "")) ∧
      (splitsOutRow df (valueCols yearsW)).getLast? =
        Option.some (Value.str "") := by
  refine ⟨_, rfl, ?_, ?_⟩
  · exact (claim_c10_actual_divsplit_empty yearsW "2026-10-12" pdW _ rfl).2.2.1
  · exact (claim_c10_actual_divsplit_empty yearsW "2026-10-12" pdW _ rfl).2.2.2


end TickerData
